import Mathlib

/-!
Verification development for the questionnaire synchronization engine of an
internal business-operations backend. The engine converts an internally
authored questionnaire into an externally hosted Google Form, ingests the
form responses into a local store through an upsert keyed on the pair
(questionnaire id, google response id), records every ingestion run in a
sync log, and exports stored responses to a spreadsheet.

The definitions below are a shallow embedding of the JavaScript source:
the FormResponse model (src/src/models/FormResponse.js), the questionnaire
route handlers (convert, sync-responses, export-to-sheets), and the
transactional questionnaire creation helper. State is passed explicitly,
SQL tables are lists of row structures, machine timestamps are naturals,
and fallible provider calls are Except values injected through an
environment record.
-/

namespace QSync

/-! ## JSON values

Model of the JavaScript value universe relevant to this code: what
JSON.parse returns and what a MySQL JSON column yields through the mysql2
driver. Numbers keep their raw lexeme; their numeric value is never used
by the code under study. -/

inductive Json where
  | null : Json
  | bool (b : Bool) : Json
  | num (raw : String) : Json
  | str (s : String) : Json
  | arr (xs : List Json) : Json
  | obj (kvs : List (String × Json)) : Json
deriving Repr

mutual

def Json.beq : Json → Json → Bool
  | .null, .null => true
  | .bool a, .bool b => a == b
  | .num a, .num b => a == b
  | .str a, .str b => a == b
  | .arr a, .arr b => Json.beqList a b
  | .obj a, .obj b => Json.beqObj a b
  | _, _ => false

def Json.beqList : List Json → List Json → Bool
  | [], [] => true
  | a :: as, b :: bs => Json.beq a b && Json.beqList as bs
  | _, _ => false

def Json.beqObj : List (String × Json) → List (String × Json) → Bool
  | [], [] => true
  | (ka, va) :: as, (kb, vb) :: bs => ka == kb && Json.beq va vb && Json.beqObj as bs
  | _, _ => false

end

mutual

theorem Json.beq_refl : (j : Json) → Json.beq j j = true
  | .null => rfl
  | .bool b => by simp [Json.beq]
  | .num r => by simp [Json.beq]
  | .str s => by simp [Json.beq]
  | .arr xs => by simpa [Json.beq] using Json.beqList_refl xs
  | .obj kvs => by simpa [Json.beq] using Json.beqObj_refl kvs

theorem Json.beqList_refl : (xs : List Json) → Json.beqList xs xs = true
  | [] => rfl
  | a :: as => by simp [Json.beqList, Json.beq_refl a, Json.beqList_refl as]

theorem Json.beqObj_refl : (kvs : List (String × Json)) → Json.beqObj kvs kvs = true
  | [] => rfl
  | (k, v) :: as => by simp [Json.beqObj, Json.beq_refl v, Json.beqObj_refl as]

end

mutual

theorem Json.eq_of_beq : {a b : Json} → Json.beq a b = true → a = b
  | .null, .null, _ => rfl
  | .bool x, .bool y, h => by simp [Json.beq] at h; simp [h]
  | .num x, .num y, h => by simp [Json.beq] at h; simp [h]
  | .str x, .str y, h => by simp [Json.beq] at h; simp [h]
  | .arr xs, .arr ys, h => by
      simp only [Json.beq] at h
      exact congrArg Json.arr (Json.eqList_of_beq h)
  | .obj xs, .obj ys, h => by
      simp only [Json.beq] at h
      exact congrArg Json.obj (Json.eqObj_of_beq h)

theorem Json.eqList_of_beq : {xs ys : List Json} → Json.beqList xs ys = true → xs = ys
  | [], [], _ => rfl
  | a :: as, b :: bs, h => by
      simp only [Json.beqList, Bool.and_eq_true] at h
      exact congrArg₂ List.cons (Json.eq_of_beq h.1) (Json.eqList_of_beq h.2)

theorem Json.eqObj_of_beq : {xs ys : List (String × Json)} → Json.beqObj xs ys = true → xs = ys
  | [], [], _ => rfl
  | (ka, va) :: as, (kb, vb) :: bs, h => by
      simp only [Json.beqObj, Bool.and_eq_true] at h
      obtain ⟨⟨hk, hv⟩, hrest⟩ := h
      have hk' : ka = kb := by simpa using hk
      exact congrArg₂ List.cons (by simp [hk', Json.eq_of_beq hv]) (Json.eqObj_of_beq hrest)

end

instance : DecidableEq Json := fun a b =>
  if h : Json.beq a b = true then
    isTrue (Json.eq_of_beq h)
  else
    isFalse (fun he => h (he ▸ Json.beq_refl a))

/-! ## Google Forms response payloads

Shape of one fetched response from the provider: a response id plus an
optional answer map. Each answer entry may carry textAnswers (a list of
string values) or fileUploadAnswers (a list of file ids); entries with
neither field are possible for unanswered or unsupported items. -/

structure AnswerData where
  textAnswers : Option (List String)
  fileUploadAnswers : Option (List String)
deriving DecidableEq, Repr

structure GoogleResponse where
  responseId : String
  answers : Option (List (String × AnswerData))
deriving DecidableEq, Repr

/-- Normalized answer values: single text answers collapse to a scalar,
multi-value text answers and file uploads stay lists. -/
inductive AnswerVal where
  | scalar (s : String)
  | list (vs : List String)
deriving DecidableEq, Repr

/-- Embedding of FormResponse.parseGoogleFormAnswers: a fold over the
Object.entries of the Google answer map, building up the parsed object.
A null or missing answer map yields the empty map. -/
def parseGoogleFormAnswers : Option (List (String × AnswerData)) → List (String × AnswerVal)
  | none => []
  | some entries =>
      entries.foldl
        (fun parsed e =>
          match e.2.textAnswers with
          | some values =>
              parsed ++ [(e.1,
                match values with
                | [v] => AnswerVal.scalar v
                | vs => AnswerVal.list vs)]
          | none =>
              match e.2.fileUploadAnswers with
              | some fids => parsed ++ [(e.1, AnswerVal.list fids)]
              | none => parsed)
        []

/-- The per-entry normalization carried out by one loop iteration of
parseGoogleFormAnswers; entries with neither recognized field map to none. -/
def normalizeEntry (e : String × AnswerData) : Option (String × AnswerVal) :=
  match e.2.textAnswers with
  | some values =>
      some (e.1,
        match values with
        | [v] => AnswerVal.scalar v
        | vs => AnswerVal.list vs)
  | none =>
      match e.2.fileUploadAnswers with
      | some fids => some (e.1, AnswerVal.list fids)
      | none => none

theorem parseGoogleFormAnswers_foldl (entries : List (String × AnswerData))
    (acc : List (String × AnswerVal)) :
    entries.foldl
      (fun parsed e =>
        match e.2.textAnswers with
        | some values =>
            parsed ++ [(e.1,
              match values with
              | [v] => AnswerVal.scalar v
              | vs => AnswerVal.list vs)]
        | none =>
            match e.2.fileUploadAnswers with
            | some fids => parsed ++ [(e.1, AnswerVal.list fids)]
            | none => parsed)
      acc = acc ++ entries.filterMap normalizeEntry := by
  induction entries generalizing acc with
  | nil => simp
  | cons e rest ih =>
      cases he : e.2.textAnswers with
      | some values =>
          simp only [List.foldl_cons, List.filterMap_cons, normalizeEntry, he]
          rw [ih]
          simp
      | none =>
          cases hf : e.2.fileUploadAnswers with
          | some fids =>
              simp only [List.foldl_cons, List.filterMap_cons, normalizeEntry, he, hf]
              rw [ih]
              simp
          | none =>
              simp only [List.foldl_cons, List.filterMap_cons, normalizeEntry, he, hf]
              exact ih acc

/-- parseGoogleFormAnswers is exactly the entrywise normalization, keeping
only entries that carry textAnswers or fileUploadAnswers. -/
theorem parseGoogleFormAnswers_eq_filterMap (entries : List (String × AnswerData)) :
    parseGoogleFormAnswers (some entries) = entries.filterMap normalizeEntry := by
  simpa using parseGoogleFormAnswers_foldl entries []

/-! ## The local response store

One row of the questionnaire_responses table, restricted to the columns the
sync engine reads and writes. The unique key unique_google_response is the
pair (questionnaire_id, google_response_id), as added by the
add_response_storage.sql migration. -/

structure ResponseRow where
  id : String
  google_response_id : Option String
  questionnaire_id : String
  responder_id : Option String
  answers : List (String × AnswerVal)
  response_data : GoogleResponse
  synced_at : Nat
  sync_status : String
deriving DecidableEq, Repr

/-- A response row minus its synced_at timestamp: the byte content the
idempotence guarantee is stated over. -/
structure ResponseRowCore where
  id : String
  google_response_id : Option String
  questionnaire_id : String
  responder_id : Option String
  answers : List (String × AnswerVal)
  response_data : GoogleResponse
  sync_status : String
deriving DecidableEq, Repr

def ResponseRow.core (r : ResponseRow) : ResponseRowCore :=
  ⟨r.id, r.google_response_id, r.questionnaire_id, r.responder_id, r.answers,
    r.response_data, r.sync_status⟩

/-- Project away every synced_at timestamp of the store. -/
def stripSyncTimes (store : List ResponseRow) : List ResponseRowCore :=
  store.map ResponseRow.core

/-- Does a row collide with the unique key (questionnaire_id,
google_response_id) for the given values? -/
def matchesDedupKey (qid grid : String) (r : ResponseRow) : Bool :=
  decide (r.questionnaire_id = qid) && decide (r.google_response_id = some grid)

/-- Embedding of FormResponse.existsByGoogleResponseId: the SELECT is keyed
on google_response_id alone, with no questionnaire_id condition. -/
def existsByGoogleResponseId (store : List ResponseRow) (googleResponseId : String) : Bool :=
  store.any (fun r => decide (r.google_response_id = some googleResponseId))

/-- The row content written by the ON DUPLICATE KEY UPDATE clause of
saveGoogleFormResponse: answers, response_data, synced_at and sync_status
are overwritten, every other column keeps its stored value. -/
def updatedRow (resp : GoogleResponse) (now : Nat) (r : ResponseRow) : ResponseRow :=
  { r with
      answers := parseGoogleFormAnswers resp.answers
      response_data := resp
      synced_at := now
      sync_status := ("synced") }

/-- The fresh row written by the INSERT branch of saveGoogleFormResponse. -/
def insertedRow (resp : GoogleResponse) (questionnaireId freshId : String) (now : Nat) :
    ResponseRow :=
  { id := freshId
    google_response_id := some resp.responseId
    questionnaire_id := questionnaireId
    responder_id := none
    answers := parseGoogleFormAnswers resp.answers
    response_data := resp
    synced_at := now
    sync_status := ("synced") }

/-- Embedding of FormResponse.saveGoogleFormResponse: an INSERT with a fresh
uuid that falls back to ON DUPLICATE KEY UPDATE when a row with the same
(questionnaire_id, google_response_id) unique key already exists. The fresh
uuid is passed in as freshId and is assumed not to collide with stored
primary keys. -/
def saveGoogleFormResponse (store : List ResponseRow) (resp : GoogleResponse)
    (questionnaireId freshId : String) (now : Nat) : List ResponseRow :=
  if store.any (matchesDedupKey questionnaireId resp.responseId) then
    store.map (fun r =>
      if matchesDedupKey questionnaireId resp.responseId r then updatedRow resp now r else r)
  else
    store ++ [insertedRow resp questionnaireId freshId now]

/-! ## The per-item ingestion loop

Embedding of the for loop of the POST /:id/sync-responses handler, step 4:
for each fetched response, check existence by google response id, upsert,
and classify as new or updated by the pre-check; a per-item exception only
bumps the failed counter. Per-item failures are injected through the
saveFails oracle (indexed by loop position), matching the try/catch that
wraps each item. -/

structure SyncCounts where
  newCount : Nat
  updatedCount : Nat
  failedCount : Nat
deriving DecidableEq, Repr

def syncLoop (questionnaireId : String) (saveFails : Nat → Bool) (freshIds : Nat → String)
    (now : Nat) :
    List ResponseRow → SyncCounts → Nat → List GoogleResponse → List ResponseRow × SyncCounts
  | store, counts, _, [] => (store, counts)
  | store, counts, i, resp :: rest =>
      if saveFails i then
        syncLoop questionnaireId saveFails freshIds now store
          { counts with failedCount := counts.failedCount + 1 } (i + 1) rest
      else
        let alreadyThere := existsByGoogleResponseId store resp.responseId
        let store' := saveGoogleFormResponse store resp questionnaireId (freshIds i) now
        if alreadyThere then
          syncLoop questionnaireId saveFails freshIds now store'
            { counts with updatedCount := counts.updatedCount + 1 } (i + 1) rest
        else
          syncLoop questionnaireId saveFails freshIds now store'
            { counts with newCount := counts.newCount + 1 } (i + 1) rest

/-- Run the ingestion batch loop from zero counters. -/
def syncBatch (store : List ResponseRow) (responses : List GoogleResponse)
    (questionnaireId : String) (saveFails : Nat → Bool) (freshIds : Nat → String)
    (now : Nat) : List ResponseRow × SyncCounts :=
  syncLoop questionnaireId saveFails freshIds now store ⟨0, 0, 0⟩ 0 responses

/-- Terminal status written for a batch that ran to the end:
failedCount > 0 gives partial, otherwise completed. -/
def runStatus (counts : SyncCounts) : String :=
  if counts.failedCount > 0 then ("partial") else ("completed")

/-- A run with no injected per-item failures. -/
def noFail : Nat → Bool := fun _ => false

/-! ## Invariants of the upsert -/

/-- Some stored row collides with the unique key (qid, grid). -/
def KeyPresent (qid grid : String) (store : List ResponseRow) : Prop :=
  store.any (matchesDedupKey qid grid) = true

/-- Every stored row on the unique key of resp within questionnaire qid
already holds exactly the content the upsert for resp would write
(ignoring the synced_at timestamp). -/
def KeyHasContent (qid : String) (resp : GoogleResponse) (store : List ResponseRow) : Prop :=
  ∀ r ∈ store, matchesDedupKey qid resp.responseId r = true →
    r.answers = parseGoogleFormAnswers resp.answers ∧ r.response_data = resp ∧
    r.sync_status = ("synced")

/-- The uniqueness invariant enforced by unique_google_response: two distinct
stored rows never share a non-null (questionnaire_id, google_response_id)
pair. -/
def DedupOk (store : List ResponseRow) : Prop :=
  store.Pairwise (fun a b =>
    a.questionnaire_id = b.questionnaire_id → a.google_response_id = b.google_response_id →
      a.google_response_id = none)

theorem matchesDedupKey_updatedRow (q g : String) (resp : GoogleResponse) (now : Nat)
    (r : ResponseRow) :
    matchesDedupKey q g (updatedRow resp now r) = matchesDedupKey q g r := rfl

theorem matchesDedupKey_insertedRow (q g qid fid : String) (resp : GoogleResponse) (now : Nat) :
    matchesDedupKey q g (insertedRow resp qid fid now) =
      (decide (qid = q) && decide (resp.responseId = g)) := by
  simp [matchesDedupKey, insertedRow, eq_comm]

theorem matchesDedupKey_saveFun (qid rid q g : String) (resp : GoogleResponse) (now : Nat)
    (r : ResponseRow) :
    matchesDedupKey q g (if matchesDedupKey qid rid r then updatedRow resp now r else r) =
      matchesDedupKey q g r := by
  by_cases h : matchesDedupKey qid rid r = true
  · rw [if_pos h, matchesDedupKey_updatedRow]
  · rw [if_neg h]

theorem any_map_mem {α β : Type} (l : List α) (f : α → β) (p : β → Bool) :
    (l.map f).any p = l.any (fun a => p (f a)) := by
  induction l with
  | nil => rfl
  | cons a rest ih => simp [List.any_cons, ih]

theorem any_congr_mem {α : Type} (l : List α) (p q : α → Bool)
    (h : ∀ a ∈ l, p a = q a) : l.any p = l.any q := by
  induction l with
  | nil => rfl
  | cons a rest ih =>
      simp only [List.any_cons]
      rw [h a (List.mem_cons_self a rest), ih (fun x hx => h x (List.mem_cons_of_mem a hx))]

theorem keyPresent_save_iff (q g : String) (store : List ResponseRow) (resp : GoogleResponse)
    (qid fid : String) (now : Nat) :
    KeyPresent q g (saveGoogleFormResponse store resp qid fid now) ↔
      KeyPresent q g store ∨ (qid = q ∧ resp.responseId = g) := by
  unfold KeyPresent saveGoogleFormResponse
  by_cases h : store.any (matchesDedupKey qid resp.responseId) = true
  · rw [if_pos h]
    rw [any_map_mem]
    rw [any_congr_mem store _ (matchesDedupKey q g)
      (fun r _ => matchesDedupKey_saveFun qid resp.responseId q g resp now r)]
    constructor
    · exact Or.inl
    · rintro (hp | ⟨hq, hg⟩)
      · exact hp
      · subst hq; subst hg; exact h
  · rw [if_neg h]
    rw [List.any_append]
    simp only [List.any_cons, List.any_nil, Bool.or_false, Bool.or_eq_true,
      matchesDedupKey_insertedRow, Bool.and_eq_true, decide_eq_true_eq]

theorem keyPresent_save_self (store : List ResponseRow) (resp : GoogleResponse)
    (qid fid : String) (now : Nat) :
    KeyPresent qid resp.responseId (saveGoogleFormResponse store resp qid fid now) :=
  (keyPresent_save_iff qid resp.responseId store resp qid fid now).mpr (Or.inr ⟨rfl, rfl⟩)

theorem keyPresent_save_of (q g : String) (store : List ResponseRow) (resp : GoogleResponse)
    (qid fid : String) (now : Nat) (h : KeyPresent q g store) :
    KeyPresent q g (saveGoogleFormResponse store resp qid fid now) :=
  (keyPresent_save_iff q g store resp qid fid now).mpr (Or.inl h)

theorem keyHasContent_save_self (store : List ResponseRow) (resp : GoogleResponse)
    (qid fid : String) (now : Nat) :
    KeyHasContent qid resp (saveGoogleFormResponse store resp qid fid now) := by
  unfold KeyHasContent saveGoogleFormResponse
  by_cases h : store.any (matchesDedupKey qid resp.responseId) = true
  · rw [if_pos h]
    intro r hr hm
    obtain ⟨r0, hr0, hfr0⟩ := List.mem_map.mp hr
    by_cases hc : matchesDedupKey qid resp.responseId r0 = true
    · rw [if_pos hc] at hfr0
      subst hfr0
      exact ⟨rfl, rfl, rfl⟩
    · rw [if_neg hc] at hfr0
      subst hfr0
      exact absurd hm hc
  · rw [if_neg h]
    intro r hr hm
    rcases List.mem_append.mp hr with hr0 | hr1
    · exact absurd (List.any_eq_true.mpr ⟨r, hr0, hm⟩) h
    · have : r = insertedRow resp qid fid now := by simpa using hr1
      subst this
      exact ⟨rfl, rfl, rfl⟩

theorem keyHasContent_save_other (store : List ResponseRow) (resp resp2 : GoogleResponse)
    (qid fid : String) (now : Nat) (hne : resp2.responseId ≠ resp.responseId)
    (h : KeyHasContent qid resp store) :
    KeyHasContent qid resp (saveGoogleFormResponse store resp2 qid fid now) := by
  unfold KeyHasContent saveGoogleFormResponse
  by_cases hb : store.any (matchesDedupKey qid resp2.responseId) = true
  · rw [if_pos hb]
    intro r hr hm
    obtain ⟨r0, hr0, hfr0⟩ := List.mem_map.mp hr
    by_cases hc : matchesDedupKey qid resp2.responseId r0 = true
    · rw [if_pos hc] at hfr0
      subst hfr0
      rw [matchesDedupKey_updatedRow] at hm
      have h1 : r0.google_response_id = some resp.responseId := by
        have := (Bool.and_eq_true _ _).mp hm
        exact of_decide_eq_true this.2
      have h2 : r0.google_response_id = some resp2.responseId := by
        have := (Bool.and_eq_true _ _).mp hc
        exact of_decide_eq_true this.2
      rw [h1] at h2
      exact absurd (Option.some.inj h2).symm hne
    · rw [if_neg hc] at hfr0
      subst hfr0
      exact h r0 hr0 hm
  · rw [if_neg hb]
    intro r hr hm
    rcases List.mem_append.mp hr with hr0 | hr1
    · exact h r hr0 hm
    · have : r = insertedRow resp2 qid fid now := by simpa using hr1
      subst this
      rw [matchesDedupKey_insertedRow] at hm
      have := (Bool.and_eq_true _ _).mp hm
      exact absurd (of_decide_eq_true this.2) hne

theorem map_congr_mem {α β : Type} (l : List α) (f g : α → β)
    (h : ∀ a ∈ l, f a = g a) : l.map f = l.map g := by
  induction l with
  | nil => rfl
  | cons a rest ih =>
      simp only [List.map_cons]
      rw [h a (List.mem_cons_self a rest), ih (fun x hx => h x (List.mem_cons_of_mem a hx))]

theorem stripSyncTimes_save_of_content (store : List ResponseRow) (resp : GoogleResponse)
    (qid fid : String) (now : Nat) (hp : KeyPresent qid resp.responseId store)
    (hc : KeyHasContent qid resp store) :
    stripSyncTimes (saveGoogleFormResponse store resp qid fid now) = stripSyncTimes store := by
  have hp' : store.any (matchesDedupKey qid resp.responseId) = true := hp
  unfold saveGoogleFormResponse
  rw [if_pos hp']
  unfold stripSyncTimes
  rw [List.map_map]
  apply map_congr_mem
  intro r hr
  by_cases hm : matchesDedupKey qid resp.responseId r = true
  · obtain ⟨ha, hd, hs⟩ := hc r hr hm
    simp only [Function.comp_apply, if_pos hm]
    unfold ResponseRow.core updatedRow
    simp [ha, hd, hs]
  · simp [Function.comp_apply, hm]

theorem stripSyncTimes_length (store : List ResponseRow) :
    (stripSyncTimes store).length = store.length := by
  unfold stripSyncTimes
  exact List.length_map store ResponseRow.core

/-! Presence and content are properties of the timestamp-stripped store. -/

def coreMatchesDedupKey (qid grid : String) (c : ResponseRowCore) : Bool :=
  decide (c.questionnaire_id = qid) && decide (c.google_response_id = some grid)

def CoreKeyHasContent (qid : String) (resp : GoogleResponse)
    (cores : List ResponseRowCore) : Prop :=
  ∀ c ∈ cores, coreMatchesDedupKey qid resp.responseId c = true →
    c.answers = parseGoogleFormAnswers resp.answers ∧ c.response_data = resp ∧
    c.sync_status = ("synced")

theorem keyPresent_iff_strip (q g : String) (store : List ResponseRow) :
    KeyPresent q g store ↔ (stripSyncTimes store).any (coreMatchesDedupKey q g) = true := by
  unfold KeyPresent stripSyncTimes
  rw [any_map_mem]
  rfl

theorem keyHasContent_iff_strip (qid : String) (resp : GoogleResponse)
    (store : List ResponseRow) :
    KeyHasContent qid resp store ↔ CoreKeyHasContent qid resp (stripSyncTimes store) := by
  unfold KeyHasContent CoreKeyHasContent stripSyncTimes
  constructor
  · intro h c hc hm
    obtain ⟨r, hr, hrc⟩ := List.mem_map.mp hc
    subst hrc
    exact h r hr hm
  · intro h r hr hm
    exact h r.core (List.mem_map.mpr ⟨r, hr, rfl⟩) hm

theorem keyPresent_congr_strip (q g : String) (s s' : List ResponseRow)
    (hs : stripSyncTimes s = stripSyncTimes s') :
    KeyPresent q g s ↔ KeyPresent q g s' := by
  rw [keyPresent_iff_strip, keyPresent_iff_strip, hs]

theorem keyHasContent_congr_strip (qid : String) (resp : GoogleResponse)
    (s s' : List ResponseRow) (hs : stripSyncTimes s = stripSyncTimes s') :
    KeyHasContent qid resp s ↔ KeyHasContent qid resp s' := by
  rw [keyHasContent_iff_strip, keyHasContent_iff_strip, hs]

/-! ## Invariants of the ingestion loop -/

theorem syncLoop_fst_keyPresent (qid : String) (fails : Nat → Bool) (ids : Nat → String)
    (now : Nat) (q g : String) (rest : List GoogleResponse) :
    ∀ (store : List ResponseRow) (counts : SyncCounts) (i : Nat),
      KeyPresent q g store →
      KeyPresent q g (syncLoop qid fails ids now store counts i rest).1 := by
  induction rest with
  | nil => intro store counts i h; simpa [syncLoop] using h
  | cons resp rest ih =>
      intro store counts i h
      simp only [syncLoop]
      by_cases hf : fails i = true
      · rw [if_pos hf]; exact ih _ _ _ h
      · rw [if_neg hf]
        by_cases he : existsByGoogleResponseId store resp.responseId = true
        · rw [if_pos he]
          exact ih _ _ _ (keyPresent_save_of q g store resp qid (ids i) now h)
        · rw [if_neg he]
          exact ih _ _ _ (keyPresent_save_of q g store resp qid (ids i) now h)

theorem syncLoop_fst_keyHasContent (qid : String) (fails : Nat → Bool) (ids : Nat → String)
    (now : Nat) (resp : GoogleResponse) (rest : List GoogleResponse)
    (hne : ∀ r ∈ rest, r.responseId ≠ resp.responseId) :
    ∀ (store : List ResponseRow) (counts : SyncCounts) (i : Nat),
      KeyHasContent qid resp store →
      KeyHasContent qid resp (syncLoop qid fails ids now store counts i rest).1 := by
  induction rest with
  | nil => intro store counts i h; simpa [syncLoop] using h
  | cons head rest ih =>
      intro store counts i h
      have hhead : head.responseId ≠ resp.responseId :=
        hne head (List.mem_cons_self head rest)
      have htail : ∀ r ∈ rest, r.responseId ≠ resp.responseId :=
        fun r hr => hne r (List.mem_cons_of_mem head hr)
      simp only [syncLoop]
      by_cases hf : fails i = true
      · rw [if_pos hf]; exact ih htail _ _ _ h
      · rw [if_neg hf]
        have hsaved := keyHasContent_save_other store resp head qid (ids i) now hhead h
        by_cases he : existsByGoogleResponseId store head.responseId = true
        · rw [if_pos he]; exact ih htail _ _ _ hsaved
        · rw [if_neg he]; exact ih htail _ _ _ hsaved

theorem syncLoop_establishes (qid : String) (ids : Nat → String) (now : Nat)
    (rs : List GoogleResponse) :
    ∀ (_hnd : (rs.map fun r => r.responseId).Nodup) (store : List ResponseRow)
      (counts : SyncCounts) (i : Nat), ∀ resp ∈ rs,
      KeyPresent qid resp.responseId (syncLoop qid noFail ids now store counts i rs).1 ∧
      KeyHasContent qid resp (syncLoop qid noFail ids now store counts i rs).1 := by
  induction rs with
  | nil => intro _hnd store counts i resp hresp; simp at hresp
  | cons head rest ih =>
      intro hnd store counts i resp hresp
      have hnd' : (∀ x ∈ rest, ¬x.responseId = head.responseId) ∧
          (List.map (fun r => r.responseId) rest).Nodup := by simpa using hnd
      have htail : ∀ r ∈ rest, r.responseId ≠ head.responseId := hnd'.1
      have hndtail : (rest.map fun r => r.responseId).Nodup := hnd'.2
      simp only [syncLoop, noFail]
      rw [if_neg (by simp)]
      rcases List.mem_cons.mp hresp with rfl | hmem
      · by_cases he : existsByGoogleResponseId store resp.responseId = true
        · rw [if_pos he]
          refine ⟨syncLoop_fst_keyPresent qid noFail ids now qid resp.responseId rest _ _ _
            (keyPresent_save_self store resp qid (ids i) now), ?_⟩
          exact syncLoop_fst_keyHasContent qid noFail ids now resp rest htail _ _ _
            (keyHasContent_save_self store resp qid (ids i) now)
        · rw [if_neg he]
          refine ⟨syncLoop_fst_keyPresent qid noFail ids now qid resp.responseId rest _ _ _
            (keyPresent_save_self store resp qid (ids i) now), ?_⟩
          exact syncLoop_fst_keyHasContent qid noFail ids now resp rest htail _ _ _
            (keyHasContent_save_self store resp qid (ids i) now)
      · by_cases he : existsByGoogleResponseId store head.responseId = true
        · rw [if_pos he]
          exact ih hndtail _ _ _ resp hmem
        · rw [if_neg he]
          exact ih hndtail _ _ _ resp hmem

theorem syncLoop_strip_noop (qid : String) (ids : Nat → String) (now : Nat)
    (rs : List GoogleResponse) :
    ∀ (store : List ResponseRow) (counts : SyncCounts) (i : Nat),
      (∀ resp ∈ rs, KeyPresent qid resp.responseId store ∧ KeyHasContent qid resp store) →
      stripSyncTimes (syncLoop qid noFail ids now store counts i rs).1 =
        stripSyncTimes store := by
  induction rs with
  | nil => intro store counts i _; simp [syncLoop]
  | cons head rest ih =>
      intro store counts i h
      obtain ⟨hp, hc⟩ := h head (List.mem_cons_self head rest)
      have hsave : stripSyncTimes (saveGoogleFormResponse store head qid (ids i) now) =
          stripSyncTimes store :=
        stripSyncTimes_save_of_content store head qid (ids i) now hp hc
      have htail : ∀ resp ∈ rest,
          KeyPresent qid resp.responseId
            (saveGoogleFormResponse store head qid (ids i) now) ∧
          KeyHasContent qid resp (saveGoogleFormResponse store head qid (ids i) now) := by
        intro resp hresp
        obtain ⟨hp', hc'⟩ := h resp (List.mem_cons_of_mem head hresp)
        exact ⟨(keyPresent_congr_strip qid resp.responseId _ _ hsave).mpr hp',
          (keyHasContent_congr_strip qid resp _ _ hsave).mpr hc'⟩
      simp only [syncLoop, noFail]
      rw [if_neg (by simp)]
      by_cases he : existsByGoogleResponseId store head.responseId = true
      · rw [if_pos he]
        rw [ih _ _ _ htail, hsave]
      · rw [if_neg he]
        rw [ih _ _ _ htail, hsave]

/-! ## The uniqueness invariant is preserved -/

theorem dedupOk_save (store : List ResponseRow) (resp : GoogleResponse)
    (qid fid : String) (now : Nat) (h : DedupOk store) :
    DedupOk (saveGoogleFormResponse store resp qid fid now) := by
  unfold saveGoogleFormResponse
  by_cases hb : store.any (matchesDedupKey qid resp.responseId) = true
  · rw [if_pos hb]
    unfold DedupOk at h ⊢
    rw [List.pairwise_map]
    have key_q : ∀ r : ResponseRow,
        (if matchesDedupKey qid resp.responseId r then updatedRow resp now r
          else r).questionnaire_id = r.questionnaire_id := by
      intro r
      by_cases hm : matchesDedupKey qid resp.responseId r = true
      · rw [if_pos hm]; rfl
      · rw [if_neg hm]
    have key_g : ∀ r : ResponseRow,
        (if matchesDedupKey qid resp.responseId r then updatedRow resp now r
          else r).google_response_id = r.google_response_id := by
      intro r
      by_cases hm : matchesDedupKey qid resp.responseId r = true
      · rw [if_pos hm]; rfl
      · rw [if_neg hm]
    refine h.imp ?_
    intro a b hab h1 h2
    rw [key_q a, key_q b] at h1
    rw [key_g a, key_g b] at h2
    rw [key_g a]
    exact hab h1 h2
  · rw [if_neg hb]
    unfold DedupOk at h ⊢
    rw [List.pairwise_append]
    refine ⟨h, List.pairwise_singleton _ _, ?_⟩
    intro a ha b hb'
    have hbrow : b = insertedRow resp qid fid now := by simpa using hb'
    subst hbrow
    intro h1 h2
    have hqa : a.questionnaire_id = qid := h1
    have hga : a.google_response_id = some resp.responseId := by
      rw [h2]; rfl
    have hmatch : matchesDedupKey qid resp.responseId a = true := by
      unfold matchesDedupKey
      rw [hqa, hga]
      simp
    exact absurd (List.any_eq_true.mpr ⟨a, ha, hmatch⟩) hb

theorem dedupOk_syncLoop (qid : String) (fails : Nat → Bool) (ids : Nat → String)
    (now : Nat) (rs : List GoogleResponse) :
    ∀ (store : List ResponseRow) (counts : SyncCounts) (i : Nat),
      DedupOk store → DedupOk (syncLoop qid fails ids now store counts i rs).1 := by
  induction rs with
  | nil => intro store counts i h; simpa [syncLoop] using h
  | cons head rest ih =>
      intro store counts i h
      simp only [syncLoop]
      by_cases hf : fails i = true
      · rw [if_pos hf]; exact ih _ _ _ h
      · rw [if_neg hf]
        have hsaved := dedupOk_save store head qid (ids i) now h
        by_cases he : existsByGoogleResponseId store head.responseId = true
        · rw [if_pos he]; exact ih _ _ _ hsaved
        · rw [if_neg he]; exact ih _ _ _ hsaved

/-! ## Repeated ingestion runs -/

/-- One full ingestion run over an unchanged provider response set, with no
per-item failures: the per-item loop of the sync-responses handler run from
zero counters. -/
def syncRun (store : List ResponseRow) (responses : List GoogleResponse)
    (questionnaireId : String) (freshIds : Nat → String) (now : Nat) : List ResponseRow :=
  (syncBatch store responses questionnaireId noFail freshIds now).1

/-- Ingestion re-run n times over the same provider response set; run k uses
its own fresh uuids and its own clock value. -/
def iterSyncRuns (responses : List GoogleResponse) (questionnaireId : String)
    (freshIdsAt : Nat → Nat → String) (nowAt : Nat → Nat) (store : List ResponseRow) :
    Nat → List ResponseRow
  | 0 => store
  | n + 1 =>
      syncRun (iterSyncRuns responses questionnaireId freshIdsAt nowAt store n)
        responses questionnaireId (freshIdsAt n) (nowAt n)

theorem iterSyncRuns_strip_stable (responses : List GoogleResponse)
    (questionnaireId : String) (freshIdsAt : Nat → Nat → String) (nowAt : Nat → Nat)
    (store : List ResponseRow)
    (hnd : (responses.map fun r => r.responseId).Nodup) :
    ∀ n : Nat,
      stripSyncTimes (iterSyncRuns responses questionnaireId freshIdsAt nowAt store (n + 1)) =
        stripSyncTimes (iterSyncRuns responses questionnaireId freshIdsAt nowAt store 1) := by
  intro n
  induction n with
  | zero => rfl
  | succ m ih =>
      have hbase : ∀ resp ∈ responses,
          KeyPresent questionnaireId resp.responseId
            (iterSyncRuns responses questionnaireId freshIdsAt nowAt store 1) ∧
          KeyHasContent questionnaireId resp
            (iterSyncRuns responses questionnaireId freshIdsAt nowAt store 1) := by
        intro resp hresp
        exact syncLoop_establishes questionnaireId (freshIdsAt 0) (nowAt 0) responses hnd
          store ⟨0, 0, 0⟩ 0 resp hresp
      have hcur : ∀ resp ∈ responses,
          KeyPresent questionnaireId resp.responseId
            (iterSyncRuns responses questionnaireId freshIdsAt nowAt store (m + 1)) ∧
          KeyHasContent questionnaireId resp
            (iterSyncRuns responses questionnaireId freshIdsAt nowAt store (m + 1)) := by
        intro resp hresp
        obtain ⟨hp, hc⟩ := hbase resp hresp
        exact ⟨(keyPresent_congr_strip questionnaireId resp.responseId _ _ ih.symm).mp hp,
          (keyHasContent_congr_strip questionnaireId resp _ _ ih.symm).mp hc⟩
      calc stripSyncTimes (iterSyncRuns responses questionnaireId freshIdsAt nowAt store (m + 2))
          = stripSyncTimes (iterSyncRuns responses questionnaireId freshIdsAt nowAt store (m + 1)) := by
            exact syncLoop_strip_noop questionnaireId (freshIdsAt (m + 1)) (nowAt (m + 1))
              responses _ ⟨0, 0, 0⟩ 0 hcur
        _ = stripSyncTimes (iterSyncRuns responses questionnaireId freshIdsAt nowAt store 1) := ih

theorem iterSyncRuns_dedupOk (responses : List GoogleResponse) (questionnaireId : String)
    (freshIdsAt : Nat → Nat → String) (nowAt : Nat → Nat) (store : List ResponseRow)
    (h : DedupOk store) : ∀ n : Nat,
      DedupOk (iterSyncRuns responses questionnaireId freshIdsAt nowAt store n) := by
  intro n
  induction n with
  | zero => exact h
  | succ m ih =>
      exact dedupOk_syncLoop questionnaireId noFail (freshIdsAt m) (nowAt m) responses
        _ ⟨0, 0, 0⟩ 0 ih

/-- Claim C1: re-running the sync-responses ingestion n > 1 times over an
unchanged provider response set leaves the local response store with the
same row count and the same row content as one run, except for the
synced_at timestamps overwritten by the upsert, and never creates a second
row for a (questionnaire id, google response id) pair. Hypotheses: the
provider response ids of one batch are pairwise distinct, and the store
satisfies the unique_google_response invariant to begin with. -/
theorem sync_responses_ingestion_idempotent (store : List ResponseRow)
    (responses : List GoogleResponse) (questionnaireId : String)
    (freshIdsAt : Nat → Nat → String) (nowAt : Nat → Nat) (n : Nat) (hn : 1 ≤ n)
    (hnd : (responses.map fun r => r.responseId).Nodup) (hded : DedupOk store) :
    stripSyncTimes (iterSyncRuns responses questionnaireId freshIdsAt nowAt store n) =
      stripSyncTimes (iterSyncRuns responses questionnaireId freshIdsAt nowAt store 1) ∧
    (iterSyncRuns responses questionnaireId freshIdsAt nowAt store n).length =
      (iterSyncRuns responses questionnaireId freshIdsAt nowAt store 1).length ∧
    DedupOk (iterSyncRuns responses questionnaireId freshIdsAt nowAt store n) := by
  obtain ⟨m, rfl⟩ : ∃ m, n = m + 1 := ⟨n - 1, by omega⟩
  have hstrip :=
    iterSyncRuns_strip_stable responses questionnaireId freshIdsAt nowAt store hnd m
  refine ⟨hstrip, ?_,
    iterSyncRuns_dedupOk responses questionnaireId freshIdsAt nowAt store hded (m + 1)⟩
  rw [← stripSyncTimes_length, ← stripSyncTimes_length
    (iterSyncRuns responses questionnaireId freshIdsAt nowAt store 1), hstrip]

def c1Responses : List GoogleResponse :=
  [⟨("r1"), some [(("k1"), ⟨some [("yes")], none⟩)]⟩, ⟨("r2"), none⟩]

def c1Ids : Nat → Nat → String := fun k i => toString (k * 100 + i)

def c1Now : Nat → Nat := fun k => k + 10

/-- Witness for claim C1: a concrete two-response batch ingested three
times into an empty store. -/
theorem sync_responses_ingestion_idempotent_witness :
    (1 : Nat) ≤ 3 ∧ ((c1Responses.map fun r => r.responseId).Nodup) ∧
    DedupOk [] ∧
    (stripSyncTimes (iterSyncRuns c1Responses ("q1") c1Ids c1Now [] 3) =
        stripSyncTimes (iterSyncRuns c1Responses ("q1") c1Ids c1Now [] 1) ∧
      (iterSyncRuns c1Responses ("q1") c1Ids c1Now [] 3).length =
        (iterSyncRuns c1Responses ("q1") c1Ids c1Now [] 1).length ∧
      DedupOk (iterSyncRuns c1Responses ("q1") c1Ids c1Now [] 3)) :=
  ⟨by decide, by decide, List.Pairwise.nil,
    sync_responses_ingestion_idempotent [] c1Responses ("q1") c1Ids c1Now 3
      (by decide) (by decide) List.Pairwise.nil⟩

/-! ## Claim C2: classification of new versus updated -/

def c2Store : List ResponseRow :=
  [⟨("a1"), some ("r1"), ("q1"), none, [], ⟨("r1"), none⟩, 0, ("synced")⟩]

/-- Claim C2 counterexample: the store holds a row for the pair (q1, r1)
only; ingesting response r1 into questionnaire q2 finds no row for the
dedup pair (q2, r1), yet the run classifies the item as updated and not as
new, because FormResponse.existsByGoogleResponseId tests the google
response id alone. -/
theorem sync_classification_counterexample :
    c2Store.any (matchesDedupKey ("q2") ("r1")) = false ∧
    (syncBatch c2Store [⟨("r1"), none⟩] ("q2") noFail (fun i => toString i) 1).2.newCount = 0 ∧
    (syncBatch c2Store [⟨("r1"), none⟩] ("q2") noFail
      (fun i => toString i) 1).2.updatedCount = 1 := by
  decide

/-! ## A model of JSON.parse

The convert handler tolerates option values that are structured lists or
delimited strings; for strings it first runs JSON.parse and only on a parse
failure falls back to comma splitting. The parser below implements the JSON
grammar (values, arrays, objects, strings with escapes, strict numbers) as
the model of the platform JSON.parse; fuel bounds the recursion. -/

def quoteChar : Char := Char.ofNat 34

def backslashChar : Char := Char.ofNat 92

def lbraceChar : Char := Char.ofNat 123

def rbraceChar : Char := Char.ofNat 125

def jsonWs (c : Char) : Bool :=
  decide (c = ' ') || decide (c = Char.ofNat 9) || decide (c = Char.ofNat 10) ||
    decide (c = Char.ofNat 13)

def skipWs : List Char → List Char
  | [] => []
  | c :: rest => if jsonWs c then skipWs rest else c :: rest

def hexVal (c : Char) : Option Nat :=
  if decide ('0' ≤ c) && decide (c ≤ '9') then some (c.toNat - (48 : Nat))
  else if decide ('a' ≤ c) && decide (c ≤ 'f') then some (c.toNat - (97 : Nat) + 10)
  else if decide ('A' ≤ c) && decide (c ≤ 'F') then some (c.toNat - (65 : Nat) + 10)
  else none

def escChar (e : Char) : Option Char :=
  if e = quoteChar then some quoteChar
  else if e = backslashChar then some backslashChar
  else if e = '/' then some '/'
  else if e = 'b' then some (Char.ofNat 8)
  else if e = 'f' then some (Char.ofNat 12)
  else if e = 'n' then some (Char.ofNat 10)
  else if e = 'r' then some (Char.ofNat 13)
  else if e = 't' then some (Char.ofNat 9)
  else none

def parseJStringChars : Nat → List Char → Option (List Char × List Char)
  | 0, _ => none
  | fuel + 1, input =>
      match input with
      | [] => none
      | c :: rest =>
          if c = quoteChar then some ([], rest)
          else if c = backslashChar then
            match rest with
            | [] => none
            | e :: rest2 =>
                if e = 'u' then
                  match rest2 with
                  | h1 :: h2 :: h3 :: h4 :: rest3 =>
                      match hexVal h1, hexVal h2, hexVal h3, hexVal h4 with
                      | some a, some b, some c2, some d =>
                          match parseJStringChars fuel rest3 with
                          | some (cs, rem) =>
                              some (Char.ofNat (a * 4096 + b * 256 + c2 * 16 + d) :: cs, rem)
                          | none => none
                      | _, _, _, _ => none
                  | _ => none
                else
                  match escChar e with
                  | some ch =>
                      match parseJStringChars fuel rest2 with
                      | some (cs, rem) => some (ch :: cs, rem)
                      | none => none
                  | none => none
          else if c.toNat < 32 then none
          else
            match parseJStringChars fuel rest with
            | some (cs, rem) => some (c :: cs, rem)
            | none => none

def digitSpan (l : List Char) : List Char × List Char :=
  (l.takeWhile Char.isDigit, l.dropWhile Char.isDigit)

def parseExpPart (acc : List Char) (input : List Char) : Option (List Char × List Char) :=
  match input with
  | [] => some (acc, input)
  | c :: rest =>
      if c = 'e' ∨ c = 'E' then
        match rest with
        | [] => none
        | s :: rest2 =>
            if s = '+' ∨ s = '-' then
              match digitSpan rest2 with
              | (ds, rem) => if ds.isEmpty then none else some (acc ++ [c, s] ++ ds, rem)
            else
              match digitSpan rest with
              | (ds, rem) => if ds.isEmpty then none else some (acc ++ [c] ++ ds, rem)
      else some (acc, input)

def parseFracPart (acc : List Char) (input : List Char) : Option (List Char × List Char) :=
  match input with
  | [] => some (acc, input)
  | c :: rest =>
      if c = '.' then
        match digitSpan rest with
        | (ds, rem) => if ds.isEmpty then none else some (acc ++ [c] ++ ds, rem)
      else some (acc, input)

def parseNumberLexeme (input : List Char) : Option (List Char × List Char) :=
  let signed : List Char × List Char :=
    match input with
    | c :: rest => if c = '-' then ([c], rest) else ([], input)
    | [] => ([], input)
  match signed.2 with
  | [] => none
  | c :: rest =>
      if c = '0' then
        match parseFracPart (signed.1 ++ [c]) rest with
        | some (acc2, rest2) => parseExpPart acc2 rest2
        | none => none
      else if c.isDigit then
        match digitSpan signed.2 with
        | (ds, rem) =>
            match parseFracPart (signed.1 ++ ds) rem with
            | some (acc2, rest2) => parseExpPart acc2 rest2
            | none => none
      else none

def stripPrefixChars : List Char → List Char → Option (List Char)
  | [], input => some input
  | _ :: _, [] => none
  | p :: ps, c :: rest => if c = p then stripPrefixChars ps rest else none

mutual

def parseJValue : Nat → List Char → Option (Json × List Char)
  | 0, _ => none
  | fuel + 1, input =>
      match skipWs input with
      | [] => none
      | c :: rest =>
          if c = quoteChar then
            match parseJStringChars (rest.length + 1) rest with
            | some (cs, rem) => some (Json.str (String.mk cs), rem)
            | none => none
          else if c = '[' then parseJArray fuel rest
          else if c = lbraceChar then parseJObject fuel rest
          else if c = 't' then
            match stripPrefixChars ['r', 'u', 'e'] rest with
            | some rem => some (Json.bool true, rem)
            | none => none
          else if c = 'f' then
            match stripPrefixChars ['a', 'l', 's', 'e'] rest with
            | some rem => some (Json.bool false, rem)
            | none => none
          else if c = 'n' then
            match stripPrefixChars ['u', 'l', 'l'] rest with
            | some rem => some (Json.null, rem)
            | none => none
          else
            match parseNumberLexeme (c :: rest) with
            | some (lex, rem) => some (Json.num (String.mk lex), rem)
            | none => none

def parseJArray : Nat → List Char → Option (Json × List Char)
  | 0, _ => none
  | fuel + 1, input =>
      match skipWs input with
      | [] => none
      | c :: rest =>
          if c = ']' then some (Json.arr [], rest)
          else
            match parseJValue fuel (c :: rest) with
            | some (v, rem) => parseJArrayLoop fuel [v] rem
            | none => none

def parseJArrayLoop : Nat → List Json → List Char → Option (Json × List Char)
  | 0, _, _ => none
  | fuel + 1, acc, input =>
      match skipWs input with
      | [] => none
      | c :: rest =>
          if c = ']' then some (Json.arr acc, rest)
          else if c = ',' then
            match parseJValue fuel rest with
            | some (v, rem) => parseJArrayLoop fuel (acc ++ [v]) rem
            | none => none
          else none

def parseJObject : Nat → List Char → Option (Json × List Char)
  | 0, _ => none
  | fuel + 1, input =>
      match skipWs input with
      | [] => none
      | c :: rest =>
          if c = rbraceChar then some (Json.obj [], rest)
          else if c = quoteChar then
            match parseJStringChars (rest.length + 1) rest with
            | some (key, rem) => parseJMember fuel [] (String.mk key) rem
            | none => none
          else none

def parseJMember : Nat → List (String × Json) → String → List Char →
    Option (Json × List Char)
  | 0, _, _, _ => none
  | fuel + 1, acc, key, input =>
      match skipWs input with
      | [] => none
      | c :: rest =>
          if c = ':' then
            match parseJValue fuel rest with
            | some (v, rem) => parseJObjectLoop fuel (acc ++ [(key, v)]) rem
            | none => none
          else none

def parseJObjectLoop : Nat → List (String × Json) → List Char → Option (Json × List Char)
  | 0, _, _ => none
  | fuel + 1, acc, input =>
      match skipWs input with
      | [] => none
      | c :: rest =>
          if c = rbraceChar then some (Json.obj acc, rest)
          else if c = ',' then
            match skipWs rest with
            | [] => none
            | c2 :: rest2 =>
                if c2 = quoteChar then
                  match parseJStringChars (rest2.length + 1) rest2 with
                  | some (key, rem) => parseJMember fuel acc (String.mk key) rem
                  | none => none
                else none
          else none

end

/-- Model of JSON.parse: parse one JSON value and require only trailing
whitespace after it. -/
def jsonParse (s : String) : Option Json :=
  match parseJValue (s.length * 2 + 8) s.data with
  | some (v, rem) => if (skipWs rem).isEmpty then some v else none
  | none => none

/-! ## Option values and the convert request builder -/

/-- The JavaScript shapes the options column can take when it reaches the
convert handler: null, an already-structured array (a JSON column decoded by
the driver), or a raw string. -/
inductive OptionsJS where
  | null : OptionsJS
  | jsArr (xs : List Json) : OptionsJS
  | jsStr (s : String) : OptionsJS
deriving DecidableEq, Repr

/-- Whitespace as the trim of the fallback path strips it. -/
def isWhitespaceChar (c : Char) : Bool :=
  decide (c = ' ') || decide (c = Char.ofNat 9) || decide (c = Char.ofNat 10) ||
    decide (c = Char.ofNat 13)

/-- Model of String.prototype.trim. -/
def trimChars (l : List Char) : List Char :=
  ((l.dropWhile isWhitespaceChar).reverse.dropWhile isWhitespaceChar).reverse

/-- Model of String.prototype.split with separator comma. -/
def splitCommaAux : List Char → List Char → List (List Char)
  | [], acc => [acc.reverse]
  | c :: rest, acc =>
      if c = ',' then acc.reverse :: splitCommaAux rest []
      else splitCommaAux rest (c :: acc)

/-- The comma-split fallback of the convert handler: split on commas, trim
whitespace around each entry, drop empty entries. -/
def splitTrimFilter (s : String) : List String :=
  ((splitCommaAux s.data []).map (fun cs => String.mk (trimChars cs))).filter
    (fun opt => opt.length > 0)

/-- Embedding of the options handling in the convert handler: options start
as the empty list; a truthy array is used as is; a truthy string is parsed
with JSON.parse first and split on commas only when that parse fails. When
JSON.parse succeeds with a value that is not an array the subsequent
options.map call raises a TypeError, which the model reports as error. -/
def parseOptions : OptionsJS → Except Unit (List Json)
  | .null => .ok []
  | .jsArr xs => .ok xs
  | .jsStr s =>
      if s = "" then .ok []
      else
        match jsonParse s with
        | some (Json.arr xs) => .ok xs
        | some _ => .error ()
        | none => .ok ((splitTrimFilter s).map Json.str)

/-- Question payloads of the Google Forms createItem requests built by the
convert handler. Choice payloads keep the option values that the handler
wraps one by one into value objects. -/
inductive QuestionPayload where
  | textQuestion (paragraph : Bool) : QuestionPayload
  | choiceQuestion (ctype : String) (options : List Json) : QuestionPayload
  | scaleQuestion (low high : Nat) (lowLabel highLabel : String) : QuestionPayload
  | noPayload : QuestionPayload
deriving DecidableEq, Repr

/-- One operation of the batchUpdate request issued by the convert
handler. -/
inductive FormRequest where
  | updateFormInfo (description : String) : FormRequest
  | createItem (title : String) (payload : QuestionPayload) (index : Nat) : FormRequest
deriving DecidableEq, Repr

structure QuestionRow where
  id : String
  questionnaire_id : String
  question_text : String
  question_type : String
  options : OptionsJS
  order_index : Nat
deriving DecidableEq, Repr

structure QuestionnaireRow where
  id : String
  title : String
  description : Option String
  purpose : String
  google_form_id : Option String
  google_form_url : Option String
  last_synced_at : Option Nat
  total_responses : Nat
deriving DecidableEq, Repr

/-- Embedding of the per-question branch of the convert handler: type
mapping into text, choice, scale payloads; unrecognized types produce an
item with no question payload; the item location is the explicit
order_index of the question row. -/
def buildQuestionItem (q : QuestionRow) : Except Unit FormRequest :=
  if q.question_type = ("short_text") then
    .ok (.createItem q.question_text (.textQuestion false) q.order_index)
  else if q.question_type = ("long_text") then
    .ok (.createItem q.question_text (.textQuestion true) q.order_index)
  else if q.question_type = ("multiple_choice") ∨ q.question_type = ("checkbox") ∨
      q.question_type = ("dropdown") then
    match parseOptions q.options with
    | .error e => .error e
    | .ok opts =>
        .ok (.createItem q.question_text
          (.choiceQuestion
            (if q.question_type = ("checkbox") then ("CHECKBOX")
              else if q.question_type = ("dropdown") then ("DROP_DOWN") else ("RADIO"))
            opts)
          q.order_index)
  else if q.question_type = ("rating") then
    .ok (.createItem q.question_text (.scaleQuestion 1 5 ("Low") ("High")) q.order_index)
  else
    .ok (.createItem q.question_text .noPayload q.order_index)

/-- The description operation pushed first when the questionnaire
description is truthy. -/
def descriptionOps (questionnaire : QuestionnaireRow) : List FormRequest :=
  match questionnaire.description with
  | some d => if d = "" then [] else [.updateFormInfo d]
  | none => []

def buildItems : List QuestionRow → Except Unit (List FormRequest)
  | [] => .ok []
  | q :: rest =>
      match buildQuestionItem q with
      | .error e => .error e
      | .ok item =>
          match buildItems rest with
          | .error e => .error e
          | .ok items => .ok (item :: items)

/-- The full ordered request list of the single batchUpdate issued by the
convert handler: the optional description operation followed by one
createItem operation per question in query order. -/
def buildConvertRequests (questionnaire : QuestionnaireRow) (questions : List QuestionRow) :
    Except Unit (List FormRequest) :=
  match buildItems questions with
  | .error e => .error e
  | .ok items => .ok (descriptionOps questionnaire ++ items)

theorem buildQuestionItem_ok_shape (q : QuestionRow) (item : FormRequest)
    (h : buildQuestionItem q = .ok item) :
    ∃ p : QuestionPayload, item = .createItem q.question_text p q.order_index := by
  unfold buildQuestionItem at h
  by_cases h1 : q.question_type = ("short_text")
  · rw [if_pos h1] at h; exact ⟨_, (Except.ok.inj h).symm⟩
  · rw [if_neg h1] at h
    by_cases h2 : q.question_type = ("long_text")
    · rw [if_pos h2] at h; exact ⟨_, (Except.ok.inj h).symm⟩
    · rw [if_neg h2] at h
      by_cases h3 : q.question_type = ("multiple_choice") ∨ q.question_type = ("checkbox") ∨
          q.question_type = ("dropdown")
      · rw [if_pos h3] at h
        rcases hp : parseOptions q.options with e | opts
        · rw [hp] at h; exact absurd h (by simp)
        · rw [hp] at h; exact ⟨_, (Except.ok.inj h).symm⟩
      · rw [if_neg h3] at h
        by_cases h4 : q.question_type = ("rating")
        · rw [if_pos h4] at h; exact ⟨_, (Except.ok.inj h).symm⟩
        · rw [if_neg h4] at h; exact ⟨_, (Except.ok.inj h).symm⟩

theorem buildItems_ok_shape (questions : List QuestionRow) :
    ∀ items : List FormRequest, buildItems questions = .ok items →
    ∃ payloads : List QuestionPayload, payloads.length = questions.length ∧
      items = List.zipWith (fun q p => FormRequest.createItem q.question_text p q.order_index)
        questions payloads := by
  induction questions with
  | nil =>
      intro items h
      refine ⟨[], rfl, ?_⟩
      have : items = [] := (Except.ok.inj h).symm
      simp [this]
  | cons q rest ih =>
      intro items h
      unfold buildItems at h
      rcases hq : buildQuestionItem q with e | item
      · rw [hq] at h; exact absurd h (by simp)
      · rw [hq] at h
        rcases hr : buildItems rest with e | items'
        · rw [hr] at h; exact absurd h (by simp)
        · rw [hr] at h
          obtain ⟨p, hp⟩ := buildQuestionItem_ok_shape q item hq
          obtain ⟨payloads, hlen, hshape⟩ := ih items' hr
          refine ⟨p :: payloads, by simp [hlen], ?_⟩
          have : items = item :: items' := (Except.ok.inj h).symm
          rw [this, hp, hshape]
          rfl

/-! ## Handler environments

The route handlers read database rows, then call the Google APIs through an
oauth2 client. The environment records inject the outcome of each external
interaction: the stored token row, the questionnaire lookup, and the result
of each provider call. The handlers below mirror the control flow of the
source line by line; the providerCalls fields record every invocation of a
provider client operation. -/

structure TokenRow where
  access_token : String
  refresh_token : Option String
  expiry_date : Int
deriving DecidableEq, Repr

structure ApiError where
  code : Nat
  message : String
deriving DecidableEq, Repr

/-- Model of oauth2Client.generateAuthUrl with the forms.body and drive.file
scopes and the user id as state. -/
def generateAuthUrl (userId : String) : String :=
  ("https://accounts.google.com/o/oauth2/v2/auth?scope=forms.body+drive.file&access_type=offline&state=")
    ++ userId

theorem generateAuthUrl_ne_empty (userId : String) : generateAuthUrl userId ≠ ("") := by
  intro h
  have hlen : (generateAuthUrl userId).length = 0 := by rw [h]; rfl
  unfold generateAuthUrl at hlen
  rw [String.length_append] at hlen
  have hpos : 0 <
      ("https://accounts.google.com/o/oauth2/v2/auth?scope=forms.body+drive.file&access_type=offline&state=").length := by
    decide
  omega

/-! ## The convert handler -/

inductive ConvertResult where
  | credentialRequired (message authUrl : String) : ConvertResult
  | notFound (message : String) : ConvertResult
  | failed (message : String) : ConvertResult
  | success (formUrl : String) : ConvertResult
deriving DecidableEq, Repr

structure ConvertEnv where
  userId : String
  tokens : Option TokenRow
  questionnaire : Option QuestionnaireRow
  questions : List QuestionRow
  createFormResult : Except ApiError (String × String)
  batchUpdateResult : Except ApiError Unit
deriving Repr

structure ConvertOut where
  result : ConvertResult
  createFormCalls : List String
  batchUpdateCalls : List (List FormRequest)
deriving DecidableEq, Repr

/-- Embedding of POST /:id/convert: token lookup first (absent tokens short
circuit to an auth URL before any provider call), then questionnaire
lookup, then forms.create with only the title, then the single batchUpdate
guarded by requests.length > 0, with the catch block mapping 401-coded
provider errors to a fresh auth URL. -/
def convertHandler (env : ConvertEnv) : ConvertOut :=
  match env.tokens with
  | none =>
      { result := .credentialRequired ("Google authentication required")
          (generateAuthUrl env.userId)
        createFormCalls := []
        batchUpdateCalls := [] }
  | some _ =>
      match env.questionnaire with
      | none =>
          { result := .notFound ("Questionnaire not found")
            createFormCalls := []
            batchUpdateCalls := [] }
      | some questionnaire =>
          match env.createFormResult with
          | .error e =>
              if e.code = 401 then
                { result := .credentialRequired ("Google token expired or invalid")
                    (generateAuthUrl env.userId)
                  createFormCalls := [questionnaire.title]
                  batchUpdateCalls := [] }
              else
                { result := .failed (("Failed to convert to Google Form: ") ++ e.message)
                  createFormCalls := [questionnaire.title]
                  batchUpdateCalls := [] }
          | .ok (_formId, formUrl) =>
              match buildConvertRequests questionnaire env.questions with
              | .error _ =>
                  { result := .failed
                      (("Failed to convert to Google Form: ") ++ ("options.map is not a function"))
                    createFormCalls := [questionnaire.title]
                    batchUpdateCalls := [] }
              | .ok requests =>
                  if requests.length > 0 then
                    match env.batchUpdateResult with
                    | .error e =>
                        if e.code = 401 then
                          { result := .credentialRequired ("Google token expired or invalid")
                              (generateAuthUrl env.userId)
                            createFormCalls := [questionnaire.title]
                            batchUpdateCalls := [requests] }
                        else
                          { result := .failed
                              (("Failed to convert to Google Form: ") ++ e.message)
                            createFormCalls := [questionnaire.title]
                            batchUpdateCalls := [requests] }
                    | .ok _ =>
                        { result := .success formUrl
                          createFormCalls := [questionnaire.title]
                          batchUpdateCalls := [requests] }
                  else
                    { result := .success formUrl
                      createFormCalls := [questionnaire.title]
                      batchUpdateCalls := [] }

/-! ## The sync-responses handler -/

structure CloseArgs where
  fetched : Nat
  newCount : Nat
  updatedCount : Nat
  failedCount : Nat
  status : String
  errorMessage : Option String
deriving DecidableEq, Repr

inductive SyncResult where
  | authRequired (message : String) : SyncResult
  | notFound (message : String) : SyncResult
  | badRequest (message : String) : SyncResult
  | failed (message : String) : SyncResult
  | success (fetched newCount updatedCount failedCount : Nat) : SyncResult
deriving DecidableEq, Repr

structure SyncEnv where
  userId : String
  questionnaireId : String
  questionnaire : Option QuestionnaireRow
  tokens : Option TokenRow
  listResponsesResult : Except ApiError (Option (List GoogleResponse))
  createLogFails : Bool
  saveFails : Nat → Bool
  freshIds : Nat → String
  now : Nat

structure SyncOut where
  result : SyncResult
  openedLog : Bool
  closes : List CloseArgs
  providerCalls : Nat
  finalStore : List ResponseRow
  questionnaireSyncInfo : Option Nat

/-- Embedding of POST /:id/sync-responses: open the sync log first; early
aborts for a missing questionnaire, a missing google form id, or missing
tokens each close the log with status failed; a provider fetch failure is
caught by the catch block, which closes the opened log with status failed;
the success path runs the per-item loop, updates the questionnaire sync
info from the fetched count, and closes the log once with the tallies and
the completed or partial status. An exception from createSyncLog itself
leaves syncLogId unset, so the catch block closes nothing. -/
def syncHandler (env : SyncEnv) (store : List ResponseRow) : SyncOut :=
  if env.createLogFails then
    { result := .failed (("Failed to sync responses: ") ++ ("createSyncLog failed"))
      openedLog := false
      closes := []
      providerCalls := 0
      finalStore := store
      questionnaireSyncInfo := none }
  else
    match env.questionnaire with
    | none =>
        { result := .notFound ("Questionnaire not found")
          openedLog := true
          closes := [⟨0, 0, 0, 0, ("failed"), some ("Questionnaire not found")⟩]
          providerCalls := 0
          finalStore := store
          questionnaireSyncInfo := none }
    | some questionnaire =>
        match questionnaire.google_form_id with
        | none =>
            { result := .badRequest
                ("This questionnaire has not been converted to a Google Form yet")
              openedLog := true
              closes := [⟨0, 0, 0, 0, ("failed"), some ("Not converted to Google Form")⟩]
              providerCalls := 0
              finalStore := store
              questionnaireSyncInfo := none }
        | some _formId =>
            match env.tokens with
            | none =>
                { result := .authRequired ("Google authentication required")
                  openedLog := true
                  closes := [⟨0, 0, 0, 0, ("failed"), some ("Google authentication required")⟩]
                  providerCalls := 0
                  finalStore := store
                  questionnaireSyncInfo := none }
            | some _ =>
                match env.listResponsesResult with
                | .error e =>
                    { result := .failed (("Failed to sync responses: ") ++ e.message)
                      openedLog := true
                      closes := [⟨0, 0, 0, 0, ("failed"), some e.message⟩]
                      providerCalls := 1
                      finalStore := store
                      questionnaireSyncInfo := none }
                | .ok respsOpt =>
                    let googleResponses := respsOpt.getD []
                    let outcome := syncBatch store googleResponses env.questionnaireId
                      env.saveFails env.freshIds env.now
                    { result := .success googleResponses.length outcome.2.newCount
                        outcome.2.updatedCount outcome.2.failedCount
                      openedLog := true
                      closes := [⟨googleResponses.length, outcome.2.newCount,
                        outcome.2.updatedCount, outcome.2.failedCount,
                        runStatus outcome.2, none⟩]
                      providerCalls := 1
                      finalStore := outcome.1
                      questionnaireSyncInfo := some googleResponses.length }

/-! ## The export-to-sheets handler -/

inductive ExportResult where
  | notFound (message : String) : ExportResult
  | badRequest (message : String) : ExportResult
  | authRequired (message : String) : ExportResult
  | failed (message : String) : ExportResult
  | success (spreadsheetUrl : String) : ExportResult
deriving DecidableEq, Repr

structure ExportEnv where
  questionnaire : Option QuestionnaireRow
  questions : List QuestionRow
  responses : List ResponseRow
  tokens : Option TokenRow
  sheetResult : Except ApiError (String × String)
deriving Repr

structure ExportOut where
  result : ExportResult
  sheetServiceCalls : Nat
deriving DecidableEq, Repr

/-- Embedding of POST /:id/export-to-sheets: questionnaire lookup, then the
zero-question check, then the zero-response check, then the token check,
and only then the SheetsService export call. -/
def exportToSheetsHandler (env : ExportEnv) : ExportOut :=
  match env.questionnaire with
  | none => { result := .notFound ("Questionnaire not found"), sheetServiceCalls := 0 }
  | some _ =>
      if env.questions.length = 0 then
        { result := .badRequest ("No questions found for this questionnaire")
          sheetServiceCalls := 0 }
      else if env.responses.length = 0 then
        { result := .badRequest ("No responses to export. Please sync responses first.")
          sheetServiceCalls := 0 }
      else
        match env.tokens with
        | none =>
            { result := .authRequired ("Google authentication required")
              sheetServiceCalls := 0 }
        | some _ =>
            match env.sheetResult with
            | .error e =>
                { result := .failed (("Failed to export to Google Sheets: ") ++ e.message)
                  sheetServiceCalls := 1 }
            | .ok (_sheetId, url) =>
                { result := .success url, sheetServiceCalls := 1 }

/-! ## Transactional questionnaire creation

Embedding of createQuestionnaireInDB: begin a transaction, insert the
questionnaires row, insert one questionnaire_questions row per question
with order_index equal to the position in the request array, commit; any
insert failure rolls the transaction back, so the pre-transaction state is
what remains visible. Failures are injected through a CreateFailure
value naming the insert that raises. -/

structure QuestionnaireTableRow where
  id : String
  title : String
  description : Option String
  created_by : String
  purpose : String
deriving DecidableEq, Repr

/-- One questionnaire_questions row; the options column stores the JSON
text of the non-empty options array and null otherwise, decoded here as the
list itself since JSON.stringify is injective on string lists. -/
structure QuestionTableRow where
  id : String
  questionnaire_id : String
  question_text : String
  question_type : String
  options : Option (List String)
  order_index : Nat
deriving DecidableEq, Repr

structure CreationState where
  questionnaires : List QuestionnaireTableRow
  questions : List QuestionTableRow
deriving DecidableEq, Repr

structure QuestionSpec where
  text : String
  qtype : String
  options : Option (List String)
deriving DecidableEq, Repr

structure QuestionnaireData where
  title : String
  description : Option String
  purpose : String
  questions : List QuestionSpec
deriving DecidableEq, Repr

inductive CreateFailure where
  | noFailure : CreateFailure
  | questionnaireInsert : CreateFailure
  | questionInsert (i : Nat) : CreateFailure
deriving DecidableEq, Repr

def insertQuestionRows (questionnaireId : String) (questionIds : Nat → String)
    (failure : CreateFailure) : Nat → List QuestionSpec → Except String (List QuestionTableRow)
  | _, [] => .ok []
  | i, spec :: rest =>
      if failure = CreateFailure.questionInsert i then
        .error (("Database transaction failed: ") ++ ("insert questionnaire_questions"))
      else
        match insertQuestionRows questionnaireId questionIds failure (i + 1) rest with
        | .error e => .error e
        | .ok rows =>
            .ok (⟨questionIds i, questionnaireId, spec.text, spec.qtype,
              (match spec.options with
                | some opts => if opts.length > 0 then some opts else none
                | none => none), i⟩ :: rows)

def createQuestionnaireInDB (st : CreationState) (data : QuestionnaireData)
    (userId questionnaireId : String) (questionIds : Nat → String)
    (failure : CreateFailure) : Except String String × CreationState :=
  if failure = CreateFailure.questionnaireInsert then
    ((.error (("Database transaction failed: ") ++ ("insert questionnaires"))), st)
  else
    match insertQuestionRows questionnaireId questionIds failure 0 data.questions with
    | .error e => (.error e, st)
    | .ok qrows =>
        (.ok questionnaireId,
          ⟨st.questionnaires ++
              [⟨questionnaireId, data.title, data.description, userId, data.purpose⟩],
            st.questions ++ qrows⟩)

theorem insertQuestionRows_ok_shape (questionnaireId : String) (questionIds : Nat → String)
    (failure : CreateFailure) (specs : List QuestionSpec) :
    ∀ (i : Nat) (rows : List QuestionTableRow),
      insertQuestionRows questionnaireId questionIds failure i specs = .ok rows →
      rows.length = specs.length ∧
      rows.map (fun r => r.order_index) = List.range' i specs.length 1 ∧
      rows.map (fun r => r.question_text) = specs.map (fun s => s.text) ∧
      ∀ r ∈ rows, r.questionnaire_id = questionnaireId := by
  induction specs with
  | nil =>
      intro i rows h
      have : rows = [] := (Except.ok.inj h).symm
      subst this
      exact ⟨rfl, by simp [List.range'], rfl, by simp⟩
  | cons spec rest ih =>
      intro i rows h
      unfold insertQuestionRows at h
      by_cases hf : failure = CreateFailure.questionInsert i
      · rw [if_pos hf] at h; exact absurd h (by simp)
      · rw [if_neg hf] at h
        rcases hr : insertQuestionRows questionnaireId questionIds failure (i + 1) rest
          with e | rows'
        · rw [hr] at h; exact absurd h (by simp)
        · rw [hr] at h
          obtain ⟨hlen, hidx, htext, hqid⟩ := ih (i + 1) rows' hr
          have hrows : rows = ⟨questionIds i, questionnaireId, spec.text, spec.qtype,
              (match spec.options with
                | some opts => if opts.length > 0 then some opts else none
                | none => none), i⟩ :: rows' := (Except.ok.inj h).symm
          subst hrows
          refine ⟨by simp [hlen], ?_, by simp [htext], ?_⟩
          · simp only [List.map_cons, hidx, List.length_cons]
            rw [List.range'_succ]
          · intro r hr'
            rcases List.mem_cons.mp hr' with rfl | hmem
            · rfl
            · exact hqid r hmem

/-- Conversion of a stored question row to the shape the convert handler
reads from the database: a JSON options column decodes back to the stored
array. -/
def questionRowOfTable (t : QuestionTableRow) : QuestionRow :=
  ⟨t.id, t.questionnaire_id, t.question_text, t.question_type,
    (match t.options with
      | some opts => OptionsJS.jsArr (opts.map Json.str)
      | none => OptionsJS.null),
    t.order_index⟩

/-! ## Claim C5: the sync log is closed exactly once -/

/-- Claim C5: every execution of the sync-responses handler that opens a
sync log performs exactly one terminal close write on it, on every exit
path: missing questionnaire, missing google form id, missing credential,
provider fetch failure caught by the catch block, and the success or
partial-failure path; an execution that fails to open the log closes
nothing. -/
theorem sync_log_closed_exactly_once (env : SyncEnv) (store : List ResponseRow) :
    (syncHandler env store).closes.length =
      (if (syncHandler env store).openedLog then 1 else 0) := by
  rcases env with ⟨uid, qid, q, tok, lr, clf, sf, fi, nw⟩
  cases clf
  · cases q with
    | none => rfl
    | some questionnaire =>
        rcases questionnaire with ⟨qi, qt, qd, qp, gfid, gfurl, lsa, tr⟩
        cases gfid with
        | none => rfl
        | some f =>
            cases tok with
            | none => rfl
            | some t =>
                rcases lr with e | ro
                · rfl
                · rfl
  · rfl

/-! ## Claim C3: credential expiry handling -/

def c3Token : TokenRow := ⟨("ya29.expired-access-token"), none, 0⟩

def c3Questionnaire : QuestionnaireRow :=
  ⟨("q1"), ("Employee Survey"), none, ("employee_feedback"), none, none, none, 0⟩

def c3SyncQuestionnaire : QuestionnaireRow :=
  ⟨("q1"), ("Employee Survey"), none, ("employee_feedback"), some ("f1"),
    some ("https://docs.google.com/forms/d/f1/viewform"), none, 0⟩

def c3ConvertEnv : ConvertEnv :=
  ⟨("u1"), some c3Token, some c3Questionnaire, [],
    .error ⟨401, ("Invalid Credentials")⟩, .ok ()⟩

def c3SyncEnv : SyncEnv :=
  ⟨("u1"), ("q1"), some c3SyncQuestionnaire, some c3Token,
    .error ⟨401, ("Invalid Credentials")⟩, false, noFail, (fun i => toString i), 7⟩

/-- Claim C3 counterexample: the stored credential has expiry timestamp 0,
in the past, and no refresh token, yet the convert handler still reaches
forms.create (one provider call, not zero) and only the 401 rejection of
that call produces the credential-required response; the sync handler
reaches forms.responses.list and then reports a generic sync failure
carrying no authorization URL at all. -/
theorem credential_expiry_counterexample :
    c3Token.refresh_token = none ∧ c3Token.expiry_date = 0 ∧
    (convertHandler c3ConvertEnv).createFormCalls.length = 1 ∧
    (convertHandler c3ConvertEnv).result =
      ConvertResult.credentialRequired ("Google token expired or invalid")
        (generateAuthUrl ("u1")) ∧
    (syncHandler c3SyncEnv []).providerCalls = 1 ∧
    (syncHandler c3SyncEnv []).result =
      SyncResult.failed (("Failed to sync responses: ") ++ ("Invalid Credentials")) :=
  ⟨rfl, rfl, rfl, rfl, rfl, rfl⟩

/-- Claim C3 amended: neither handler inspects the stored expiry timestamp.
A credential-required result without any provider call happens only when no
credential row exists, and only convert carries an authorization URL there.
With any stored credential row, expired or not, the provider call is
attempted: convert maps a 401-coded provider error to a credential-required
result with a non-empty authorization URL, while sync-responses maps any
provider fetch error to a generic sync failure without an authorization
URL. -/
theorem credential_handling_amended :
    (∀ env : ConvertEnv, env.tokens = none →
      (convertHandler env).result =
        ConvertResult.credentialRequired ("Google authentication required")
          (generateAuthUrl env.userId) ∧
      generateAuthUrl env.userId ≠ ("") ∧
      (convertHandler env).createFormCalls = []) ∧
    (∀ (env : ConvertEnv) (t : TokenRow) (q : QuestionnaireRow),
      env.tokens = some t → env.questionnaire = some q →
      (convertHandler env).createFormCalls = [q.title]) ∧
    (∀ (env : ConvertEnv) (t : TokenRow) (q : QuestionnaireRow) (e : ApiError),
      env.tokens = some t → env.questionnaire = some q →
      env.createFormResult = .error e → e.code = 401 →
      (convertHandler env).result =
        ConvertResult.credentialRequired ("Google token expired or invalid")
          (generateAuthUrl env.userId) ∧
      generateAuthUrl env.userId ≠ ("")) ∧
    (∀ (env : SyncEnv) (store : List ResponseRow) (q : QuestionnaireRow) (f : String),
      env.createLogFails = false → env.questionnaire = some q →
      q.google_form_id = some f → env.tokens = none →
      (syncHandler env store).result = SyncResult.authRequired ("Google authentication required") ∧
      (syncHandler env store).providerCalls = 0) ∧
    (∀ (env : SyncEnv) (store : List ResponseRow) (q : QuestionnaireRow) (f : String)
        (t : TokenRow) (e : ApiError),
      env.createLogFails = false → env.questionnaire = some q →
      q.google_form_id = some f → env.tokens = some t →
      env.listResponsesResult = .error e →
      (syncHandler env store).result =
        SyncResult.failed (("Failed to sync responses: ") ++ e.message) ∧
      (syncHandler env store).providerCalls = 1) := by
  refine ⟨?_, ?_, ?_, ?_, ?_⟩
  · intro env h
    exact ⟨by simp [convertHandler, h], generateAuthUrl_ne_empty env.userId,
      by simp [convertHandler, h]⟩
  · intro env t q ht hq
    rcases env with ⟨uid, tok, qn, qs, cfr, bur⟩
    cases ht
    cases hq
    rcases cfr with e | ⟨fid, furl⟩
    · by_cases hc : e.code = 401
      · simp [convertHandler, hc]
      · simp [convertHandler, hc]
    · rcases hbr : buildConvertRequests q qs with e2 | reqs
      · simp [convertHandler, hbr]
      · simp only [convertHandler, hbr]
        by_cases hlen : reqs.length > 0
        · rw [if_pos hlen]
          rcases bur with e3 | u
          · by_cases hc3 : e3.code = 401
            · simp [hc3]
            · simp [hc3]
          · rfl
        · rw [if_neg hlen]
  · intro env t q e ht hq hcf hcode
    simp only [convertHandler, ht, hq, hcf]
    rw [if_pos hcode]
    exact ⟨rfl, generateAuthUrl_ne_empty env.userId⟩
  · intro env store q f hclf hq hf ht
    simp only [syncHandler, hclf, hq, hf, ht]
    exact ⟨rfl, rfl⟩
  · intro env store q f t e hclf hq hf ht hr
    simp only [syncHandler, hclf, hq, hf, ht, hr]
    exact ⟨rfl, rfl⟩

def c3AbsentEnv : ConvertEnv :=
  ⟨("u2"), none, some c3Questionnaire, [], .error ⟨500, ("server error")⟩, .ok ()⟩

/-- Witness for the amended claim C3 at concrete environments: an absent
credential on convert, an expired credential rejected with 401 on convert,
and an expired credential failing the fetch on sync. -/
theorem credential_handling_amended_witness :
    ((convertHandler c3AbsentEnv).result =
      ConvertResult.credentialRequired ("Google authentication required")
        (generateAuthUrl ("u2")) ∧
      generateAuthUrl ("u2") ≠ ("") ∧
      (convertHandler c3AbsentEnv).createFormCalls = []) ∧
    ((convertHandler c3ConvertEnv).result =
      ConvertResult.credentialRequired ("Google token expired or invalid")
        (generateAuthUrl ("u1")) ∧
      generateAuthUrl ("u1") ≠ ("")) ∧
    ((syncHandler c3SyncEnv []).result =
      SyncResult.failed (("Failed to sync responses: ") ++ ("Invalid Credentials")) ∧
      (syncHandler c3SyncEnv []).providerCalls = 1) :=
  ⟨credential_handling_amended.1 c3AbsentEnv rfl,
   credential_handling_amended.2.2.1 c3ConvertEnv c3Token c3Questionnaire
     ⟨401, ("Invalid Credentials")⟩ rfl rfl rfl rfl,
   credential_handling_amended.2.2.2.2 c3SyncEnv [] c3SyncQuestionnaire ("f1") c3Token
     ⟨401, ("Invalid Credentials")⟩ rfl rfl rfl rfl rfl⟩

/-! ## Claim C6: the conversion request sequence -/

def c6Token : TokenRow := ⟨("ya29.valid-access-token"), some ("refresh-1"), 9999999999⟩

def c6EmptyQuestionnaire : QuestionnaireRow :=
  ⟨("q0"), ("Empty Survey"), none, ("employee_feedback"), none, none, none, 0⟩

def c6EmptyEnv : ConvertEnv :=
  ⟨("u1"), some c6Token, some c6EmptyQuestionnaire, [],
    .ok (("f9"), ("https://docs.google.com/forms/d/f9/viewform")), .ok ()⟩

/-- Claim C6 counterexample: a questionnaire with no description and no
questions converts successfully while issuing zero batchUpdate calls, not
the single batched update the claim demands for every questionnaire; the
handler only issues the batch when the request list is non-empty. -/
theorem conversion_single_batch_counterexample :
    (convertHandler c6EmptyEnv).batchUpdateCalls.length = 0 ∧
    (convertHandler c6EmptyEnv).result =
      ConvertResult.success ("https://docs.google.com/forms/d/f9/viewform") ∧
    (convertHandler c6EmptyEnv).createFormCalls = [("Empty Survey")] :=
  ⟨rfl, rfl, rfl⟩

def c6Data : QuestionnaireData :=
  ⟨("Survey"), some ("About"), ("employee_feedback"),
    [⟨("Q1"), ("short_text"), none⟩, ⟨("Q2"), ("rating"), none⟩,
      ⟨("Q3"), ("multiple_choice"), some [("A"), ("B")]⟩, ⟨("Q4"), ("long_text"), none⟩]⟩

def c6State : CreationState :=
  (createQuestionnaireInDB ⟨[], []⟩ c6Data ("u1") ("qq1") (fun i => toString i)
    .noFailure).2

def c6QRow : QuestionnaireRow :=
  ⟨("qq1"), ("Survey"), some ("About"), ("employee_feedback"), none, none, none, 0⟩

def c6Requests : List FormRequest :=
  [FormRequest.updateFormInfo ("About"),
    FormRequest.createItem ("Q1") (QuestionPayload.textQuestion false) 0,
    FormRequest.createItem ("Q2") (QuestionPayload.scaleQuestion 1 5 ("Low") ("High")) 1,
    FormRequest.createItem ("Q3")
      (QuestionPayload.choiceQuestion ("RADIO") [Json.str ("A"), Json.str ("B")]) 2,
    FormRequest.createItem ("Q4") (QuestionPayload.textQuestion true) 3]

/-- Claim C6 amended: the form shell is created from the title alone, and at
most one batchUpdate is issued — exactly one when the operation list is
non-empty and none otherwise. The operation list is the description-set
operation (present exactly when the description is truthy) followed by one
createItem operation per question at that question row order_index.
Concretely, converting the 4-question questionnaire written by
createQuestionnaireInDB yields its description operation followed by 4
createItem operations at indices 0, 1, 2, 3 in that order. -/
theorem conversion_requests_amended :
    (∀ (q : QuestionnaireRow) (questions : List QuestionRow) (reqs : List FormRequest),
      buildConvertRequests q questions = .ok reqs →
      ∃ payloads : List QuestionPayload, payloads.length = questions.length ∧
        reqs = descriptionOps q ++
          List.zipWith (fun qq p => FormRequest.createItem qq.question_text p qq.order_index)
            questions payloads) ∧
    (∀ (q : QuestionnaireRow) (d : String), q.description = some d → ¬d = ("") →
      descriptionOps q = [FormRequest.updateFormInfo d]) ∧
    (∀ q : QuestionnaireRow, q.description = none → descriptionOps q = []) ∧
    (∀ q : QuestionnaireRow, q.description = some ("") → descriptionOps q = []) ∧
    (∀ (env : ConvertEnv) (t : TokenRow) (q : QuestionnaireRow) (fr : String × String)
        (reqs : List FormRequest),
      env.tokens = some t → env.questionnaire = some q → env.createFormResult = .ok fr →
      buildConvertRequests q env.questions = .ok reqs →
      (convertHandler env).createFormCalls = [q.title] ∧
      (convertHandler env).batchUpdateCalls = (if reqs.length > 0 then [reqs] else [])) ∧
    (buildConvertRequests c6QRow (c6State.questions.map questionRowOfTable) =
      .ok c6Requests) := by
  refine ⟨?_, ?_, ?_, ?_, ?_, rfl⟩
  · intro q questions reqs h
    unfold buildConvertRequests at h
    rcases hb : buildItems questions with e | items
    · rw [hb] at h; exact absurd h (by simp)
    · rw [hb] at h
      obtain ⟨payloads, hlen, hshape⟩ := buildItems_ok_shape questions items hb
      refine ⟨payloads, hlen, ?_⟩
      have hr : reqs = descriptionOps q ++ items := (Except.ok.inj h).symm
      rw [hr, hshape]
  · intro q d hd hne
    simp [descriptionOps, hd, hne]
  · intro q hd
    simp [descriptionOps, hd]
  · intro q hd
    simp [descriptionOps, hd]
  · intro env t q fr reqs ht hq hcf hbr
    rcases env with ⟨uid, tok, qn, qs, cfr, bur⟩
    cases ht
    cases hq
    cases hcf
    rcases fr with ⟨fid, furl⟩
    simp only [convertHandler, hbr]
    by_cases hlen : reqs.length > 0
    · rw [if_pos hlen, if_pos hlen]
      rcases bur with e3 | u
      · by_cases hc3 : e3.code = 401
        · simp [hc3]
        · simp [hc3]
      · exact ⟨rfl, rfl⟩
    · rw [if_neg hlen, if_neg hlen]
      exact ⟨rfl, rfl⟩

def c6FullEnv : ConvertEnv :=
  ⟨("u1"), some c6Token, some c6QRow, c6State.questions.map questionRowOfTable,
    .ok (("f2"), ("https://docs.google.com/forms/d/f2/viewform")), .ok ()⟩

/-- Witness for the amended claim C6: converting the concrete 4-question
questionnaire issues one createForm call with the title only and one
batchUpdate whose request list is the description operation followed by the
4 createItem operations at indices 0, 1, 2, 3. -/
theorem conversion_requests_amended_witness :
    (convertHandler c6FullEnv).createFormCalls = [("Survey")] ∧
    (convertHandler c6FullEnv).batchUpdateCalls = [c6Requests] :=
  conversion_requests_amended.2.2.2.2.1 c6FullEnv c6Token c6QRow
    (("f2"), ("https://docs.google.com/forms/d/f2/viewform")) c6Requests rfl rfl rfl rfl

/-! ## Claim C7: questionnaire creation is transactional -/

theorem createQuestionnaireInDB_error_state (st : CreationState) (data : QuestionnaireData)
    (userId questionnaireId : String) (questionIds : Nat → String)
    (failure : CreateFailure) (msg : String) (st' : CreationState)
    (h : createQuestionnaireInDB st data userId questionnaireId questionIds failure =
      (.error msg, st')) : st' = st := by
  unfold createQuestionnaireInDB at h
  by_cases hf : failure = CreateFailure.questionnaireInsert
  · rw [if_pos hf] at h
    exact (congrArg Prod.snd h).symm
  · rw [if_neg hf] at h
    rcases hr : insertQuestionRows questionnaireId questionIds failure 0 data.questions
      with e | qrows
    · rw [hr] at h
      exact (congrArg Prod.snd h).symm
    · rw [hr] at h
      exact absurd (congrArg Prod.fst h) (by simp)

def c7InitialState : CreationState :=
  ⟨[⟨("old-q"), ("Old"), none, ("u0"), ("employee_feedback")⟩],
    [⟨("old-question"), ("old-q"), ("T"), ("short_text"), none, 0⟩]⟩

def c7Data : QuestionnaireData :=
  ⟨("New Survey"), some ("Desc"), ("recruitment"),
    [⟨("A1"), ("short_text"), none⟩, ⟨("A2"), ("short_text"), none⟩,
      ⟨("A3"), ("short_text"), none⟩, ⟨("A4"), ("short_text"), none⟩,
      ⟨("A5"), ("short_text"), none⟩]⟩

/-- Claim C7: the write of the questionnaires row and all of its
questionnaire_questions rows is all-or-nothing: any insert failure rolls
the transaction back and the state is exactly the pre-transaction state, so
a fresh questionnaire id has zero visible rows afterwards; on success the
questionnaire row and one question row per request question are committed
together, with order_index values 0 .. n-1. Concretely, a creation of 5
questions that fails on the 3rd insert leaves the initial state
untouched. -/
theorem questionnaire_creation_atomic :
    (∀ (st : CreationState) (data : QuestionnaireData) (userId questionnaireId : String)
        (questionIds : Nat → String) (failure : CreateFailure) (msg : String)
        (st' : CreationState),
      createQuestionnaireInDB st data userId questionnaireId questionIds failure =
        (.error msg, st') → st' = st) ∧
    (∀ (st : CreationState) (data : QuestionnaireData) (userId questionnaireId : String)
        (questionIds : Nat → String) (failure : CreateFailure) (rid : String)
        (st' : CreationState),
      createQuestionnaireInDB st data userId questionnaireId questionIds failure =
        (.ok rid, st') →
      rid = questionnaireId ∧
      st'.questionnaires = st.questionnaires ++
        [⟨questionnaireId, data.title, data.description, userId, data.purpose⟩] ∧
      ∃ qrows : List QuestionTableRow,
        st'.questions = st.questions ++ qrows ∧
        qrows.length = data.questions.length ∧
        qrows.map (fun r => r.order_index) = List.range' 0 data.questions.length 1 ∧
        ∀ r ∈ qrows, r.questionnaire_id = questionnaireId) ∧
    (∀ (st : CreationState) (data : QuestionnaireData) (userId questionnaireId : String)
        (questionIds : Nat → String) (failure : CreateFailure) (msg : String)
        (st' : CreationState),
      (st.questionnaires.filter (fun r => decide (r.id = questionnaireId))).length = 0 →
      (st.questions.filter (fun r => decide (r.questionnaire_id = questionnaireId))).length = 0 →
      createQuestionnaireInDB st data userId questionnaireId questionIds failure =
        (.error msg, st') →
      (st'.questionnaires.filter (fun r => decide (r.id = questionnaireId))).length = 0 ∧
      (st'.questions.filter (fun r => decide (r.questionnaire_id = questionnaireId))).length
        = 0) ∧
    (createQuestionnaireInDB c7InitialState c7Data ("u1") ("qx") (fun i => toString i)
        (.questionInsert 2) =
      ((.error (("Database transaction failed: ") ++ ("insert questionnaire_questions"))),
        c7InitialState)) := by
  refine ⟨createQuestionnaireInDB_error_state, ?_, ?_, rfl⟩
  · intro st data userId questionnaireId questionIds failure rid st' h
    unfold createQuestionnaireInDB at h
    by_cases hf : failure = CreateFailure.questionnaireInsert
    · rw [if_pos hf] at h
      exact absurd (congrArg Prod.fst h) (by simp)
    · rw [if_neg hf] at h
      rcases hr : insertQuestionRows questionnaireId questionIds failure 0 data.questions
        with e | qrows
      · rw [hr] at h
        exact absurd (congrArg Prod.fst h) (by simp)
      · rw [hr] at h
        have hfst := congrArg Prod.fst h
        have hsnd := congrArg Prod.snd h
        have hridv : rid = questionnaireId := (Except.ok.inj hfst).symm
        have hsnd' : (⟨st.questionnaires ++
            [⟨questionnaireId, data.title, data.description, userId, data.purpose⟩],
            st.questions ++ qrows⟩ : CreationState) = st' := hsnd
        obtain ⟨hlen, hidx, _, hq⟩ :=
          insertQuestionRows_ok_shape questionnaireId questionIds failure data.questions
            0 qrows hr
        refine ⟨hridv, ?_, qrows, ?_, hlen, hidx, hq⟩
        · rw [← hsnd']
        · rw [← hsnd']
  · intro st data userId questionnaireId questionIds failure msg st' h1 h2 h
    have hst := createQuestionnaireInDB_error_state st data userId questionnaireId
      questionIds failure msg st' h
    rw [hst]
    exact ⟨h1, h2⟩

/-- Witness for claim C7: the concrete failing creation rolls back to the
initial state, which holds no rows for the fresh questionnaire id. -/
theorem questionnaire_creation_atomic_witness :
    (c7InitialState.questionnaires.filter (fun r => decide (r.id = ("qx")))).length = 0 ∧
    (c7InitialState.questions.filter
      (fun r => decide (r.questionnaire_id = ("qx")))).length = 0 :=
  questionnaire_creation_atomic.2.2.1 c7InitialState c7Data ("u1") ("qx")
    (fun i => toString i) (.questionInsert 2)
    (("Database transaction failed: ") ++ ("insert questionnaire_questions"))
    c7InitialState (by decide) (by decide) rfl

/-! ## Claim C8: export preconditions -/

def c8Questionnaire : QuestionnaireRow :=
  ⟨("q8"), ("Feedback"), none, ("employee_feedback"), some ("f8"), none, none, 0⟩

def c8Token : TokenRow := ⟨("ya29.ok-token"), some ("r8"), 9999999999⟩

def c8Response : ResponseRow :=
  ⟨("b1"), some ("r1"), ("q8"), none, [], ⟨("r1"), none⟩, 3, ("synced")⟩

def c8ZeroQuestionEnv : ExportEnv :=
  ⟨some c8Questionnaire, [], [c8Response], some c8Token,
    .ok (("s1"), ("https://docs.google.com/spreadsheets/d/s1"))⟩

/-- Claim C8 counterexample: a questionnaire with one stored response but
zero questions is rejected by the export handler as a precondition failure
before any external write, although the claim says zero-question exports
are permitted. -/
theorem export_zero_question_counterexample :
    (exportToSheetsHandler c8ZeroQuestionEnv).result =
      ExportResult.badRequest ("No questions found for this questionnaire") ∧
    (exportToSheetsHandler c8ZeroQuestionEnv).sheetServiceCalls = 0 ∧
    c8ZeroQuestionEnv.responses.length = 1 :=
  ⟨rfl, rfl, rfl⟩

/-- Claim C8 amended: exporting a questionnaire with zero locally stored
responses is rejected as a precondition failure before any external write;
exporting a questionnaire with zero questions is also rejected as a
precondition failure before any external write, checked even before the
responses are loaded. -/
theorem export_preconditions_amended :
    (∀ (env : ExportEnv) (q : QuestionnaireRow), env.questionnaire = some q →
      env.questions ≠ [] → env.responses = [] →
      (exportToSheetsHandler env).result =
        ExportResult.badRequest ("No responses to export. Please sync responses first.") ∧
      (exportToSheetsHandler env).sheetServiceCalls = 0) ∧
    (∀ (env : ExportEnv) (q : QuestionnaireRow), env.questionnaire = some q →
      env.questions = [] →
      (exportToSheetsHandler env).result =
        ExportResult.badRequest ("No questions found for this questionnaire") ∧
      (exportToSheetsHandler env).sheetServiceCalls = 0) := by
  constructor
  · intro env q hq hqs hre
    have hlen : ¬(env.questions.length = 0) := by
      simpa [List.length_eq_zero] using hqs
    constructor
    · simp [exportToSheetsHandler, hq, hlen, hre]
    · simp [exportToSheetsHandler, hq, hlen, hre]
  · intro env q hq hqs
    constructor
    · simp [exportToSheetsHandler, hq, hqs]
    · simp [exportToSheetsHandler, hq, hqs]

def c8QuestionRow : QuestionRow :=
  ⟨("qs1"), ("q8"), ("How was onboarding"), ("short_text"), OptionsJS.null, 0⟩

def c8ZeroResponseEnv : ExportEnv :=
  ⟨some c8Questionnaire, [c8QuestionRow], [], some c8Token,
    .ok (("s1"), ("https://docs.google.com/spreadsheets/d/s1"))⟩

/-- Witness for the amended claim C8: a concrete one-question questionnaire
with zero stored responses is rejected with the response precondition
failure and no sheet write. -/
theorem export_preconditions_amended_witness :
    (exportToSheetsHandler c8ZeroResponseEnv).result =
      ExportResult.badRequest ("No responses to export. Please sync responses first.") ∧
    (exportToSheetsHandler c8ZeroResponseEnv).sheetServiceCalls = 0 :=
  export_preconditions_amended.1 c8ZeroResponseEnv c8Questionnaire rfl (by decide) rfl

/-! ## Claim C9: the options fallback chain -/

/-- Claim C9: option values of choice questions tolerate both shapes: a
structured array is used as is; a string is parsed as JSON first, a JSON
array result is used directly, and on JSON parse failure the string is
split on commas with whitespace trimming and removal of empty entries.
The concrete cases exercise both the JSON path and the comma fallback. -/
theorem options_parsing_fallback_chain :
    (∀ xs : List Json, parseOptions (OptionsJS.jsArr xs) = .ok xs) ∧
    (∀ s : String, jsonParse s = none →
      parseOptions (OptionsJS.jsStr s) = .ok ((splitTrimFilter s).map Json.str)) ∧
    (∀ (s : String) (xs : List Json), jsonParse s = some (Json.arr xs) →
      parseOptions (OptionsJS.jsStr s) = .ok xs) ∧
    jsonParse ("[\"Red\", \"Blue\"]") =
      some (Json.arr [Json.str ("Red"), Json.str ("Blue")]) ∧
    parseOptions (OptionsJS.jsStr ("Red, Blue , ,Green")) =
      .ok [Json.str ("Red"), Json.str ("Blue"), Json.str ("Green")] ∧
    parseOptions (OptionsJS.jsStr ("[\"Red\", \"Blue\"]")) =
      .ok [Json.str ("Red"), Json.str ("Blue")] := by
  refine ⟨fun xs => rfl, ?_, ?_, by decide, rfl, rfl⟩
  · intro s h
    by_cases hs : s = ("")
    · subst hs; rfl
    · rw [parseOptions, if_neg hs, h]
  · intro s xs h
    have hs : ¬ s = ("") := by
      intro he
      subst he
      rw [show jsonParse ("") = none from rfl] at h
      exact Option.noConfusion h
    rw [parseOptions, if_neg hs, h]

/-- Witness for claim C9 at a concrete non-JSON string: the comma fallback
applies. -/
theorem options_parsing_fallback_chain_witness :
    parseOptions (OptionsJS.jsStr ("A, B")) =
      .ok ((splitTrimFilter ("A, B")).map Json.str) :=
  options_parsing_fallback_chain.2.1 ("A, B") rfl

/-! ## Claim C10: normalization omits fieldless answer entries -/

theorem normalizeEntry_fst (e : String × AnswerData) (p : String × AnswerVal)
    (h : normalizeEntry e = some p) : p.1 = e.1 := by
  unfold normalizeEntry at h
  rcases ht : e.2.textAnswers with _ | values
  · rw [ht] at h
    rcases hf : e.2.fileUploadAnswers with _ | fids
    · rw [hf] at h
      exact absurd h (by simp)
    · rw [hf] at h
      have := (Option.some.inj h).symm
      rw [this]
  · rw [ht] at h
    have := (Option.some.inj h).symm
    rw [this]

theorem mem_unique_of_nodup_fst {β : Type} (l : List (String × β))
    (h : (l.map Prod.fst).Nodup) (k : String) (a b : β)
    (ha : (k, a) ∈ l) (hb : (k, b) ∈ l) : a = b := by
  induction l with
  | nil => simp at ha
  | cons e rest ih =>
      rw [List.map_cons, List.nodup_cons] at h
      rcases List.mem_cons.mp ha with hae | har
      · rcases List.mem_cons.mp hb with hbe | hbr
        · have : ((k, a) : String × β) = (k, b) := hae.trans hbe.symm
          exact ((Prod.mk.injEq _ _ _ _).mp this).2
        · exfalso
          apply h.1
          rw [← congrArg Prod.fst hae]
          exact List.mem_map.mpr ⟨(k, b), hbr, rfl⟩
      · rcases List.mem_cons.mp hb with hbe | hbr
        · exfalso
          apply h.1
          rw [← congrArg Prod.fst hbe]
          exact List.mem_map.mpr ⟨(k, a), har, rfl⟩
        · exact ih h.2 har hbr

/-- Claim C10: a null or missing provider answer map normalizes to the
empty map; normalization is an entrywise filterMap, and any entry carrying
neither textAnswers nor fileUploadAnswers contributes no key to the
normalized answer map, silently and without failing. -/
theorem answers_normalization_omits_fieldless :
    (parseGoogleFormAnswers none = []) ∧
    (∀ entries : List (String × AnswerData),
      parseGoogleFormAnswers (some entries) = entries.filterMap normalizeEntry) ∧
    (∀ (entries : List (String × AnswerData)) (k : String) (ad : AnswerData),
      (k, ad) ∈ entries → (entries.map Prod.fst).Nodup →
      ad.textAnswers = none → ad.fileUploadAnswers = none →
      ¬ k ∈ (parseGoogleFormAnswers (some entries)).map Prod.fst) := by
  refine ⟨rfl, parseGoogleFormAnswers_eq_filterMap, ?_⟩
  intro entries k ad hmem hnd hta hfa hk
  rw [parseGoogleFormAnswers_eq_filterMap] at hk
  obtain ⟨p, hp, hpk⟩ := List.mem_map.mp hk
  obtain ⟨e, he, hne⟩ := List.mem_filterMap.mp hp
  have hek : e.1 = k := by
    rw [← hpk]
    exact (normalizeEntry_fst e p hne).symm
  have hmem2 : (k, e.2) ∈ entries := by
    rw [← hek, Prod.mk.eta]
    exact he
  have head : e.2 = ad := mem_unique_of_nodup_fst entries hnd k e.2 ad hmem2 hmem
  have hnone : normalizeEntry e = none := by
    unfold normalizeEntry
    rw [head, hta, hfa]
  rw [hnone] at hne
  exact Option.noConfusion hne

def c10Entries : List (String × AnswerData) :=
  [(("k1"), ⟨none, none⟩), (("k2"), ⟨some [("x")], none⟩)]

/-- Witness for claim C10: the concrete fieldless entry k1 produces no key
in the normalized map. -/
theorem answers_normalization_omits_fieldless_witness :
    ¬ ("k1") ∈ (parseGoogleFormAnswers (some c10Entries)).map Prod.fst :=
  answers_normalization_omits_fieldless.2.2 c10Entries ("k1") ⟨none, none⟩
    (by decide) (by decide) rfl rfl

/-! ## Claim C4: partial-failure isolation and terminal status -/

theorem runStatus_completed_iff (c : SyncCounts) :
    runStatus c = ("completed") ↔ c.failedCount = 0 := by
  unfold runStatus
  by_cases h : c.failedCount > 0
  · rw [if_pos h]
    exact ⟨fun hs => absurd hs (by decide), fun h0 => absurd h0 (by omega)⟩
  · rw [if_neg h]
    exact ⟨fun _ => by omega, fun _ => rfl⟩

theorem runStatus_partial_iff (c : SyncCounts) :
    runStatus c = ("partial") ↔ c.failedCount ≠ 0 := by
  unfold runStatus
  by_cases h : c.failedCount > 0
  · rw [if_pos h]
    exact ⟨fun _ => by omega, fun _ => rfl⟩
  · rw [if_neg h]
    exact ⟨fun hs => absurd hs (by decide), fun h0 => absurd (by omega : c.failedCount = 0) h0⟩

theorem syncLoop_counts_total (qid : String) (fails : Nat → Bool) (ids : Nat → String)
    (now : Nat) (rs : List GoogleResponse) :
    ∀ (store : List ResponseRow) (counts : SyncCounts) (i : Nat),
      (syncLoop qid fails ids now store counts i rs).2.newCount +
        (syncLoop qid fails ids now store counts i rs).2.updatedCount +
        (syncLoop qid fails ids now store counts i rs).2.failedCount =
      counts.newCount + counts.updatedCount + counts.failedCount + rs.length := by
  induction rs with
  | nil => intro store counts i; simp [syncLoop]
  | cons head rest ih =>
      intro store counts i
      simp only [syncLoop]
      by_cases hf : fails i = true
      · rw [if_pos hf]
        rw [ih]
        simp only [List.length_cons]
        omega
      · rw [if_neg hf]
        by_cases he : existsByGoogleResponseId store head.responseId = true
        · rw [if_pos he]
          rw [ih]
          simp only [List.length_cons]
          omega
        · rw [if_neg he]
          rw [ih]
          simp only [List.length_cons]
          omega

/-- The external response ids of the batch items whose per-item upsert did
not fail, starting from loop position i. -/
def batchWrites (fails : Nat → Bool) : Nat → List GoogleResponse → List String
  | _, [] => []
  | i, r :: rest =>
      if fails i then batchWrites fails (i + 1) rest
      else r.responseId :: batchWrites fails (i + 1) rest

theorem existsBy_save_iff (g : String) (store : List ResponseRow) (resp : GoogleResponse)
    (qid fid : String) (now : Nat) :
    existsByGoogleResponseId (saveGoogleFormResponse store resp qid fid now) g = true ↔
      existsByGoogleResponseId store g = true ∨ resp.responseId = g := by
  unfold existsByGoogleResponseId saveGoogleFormResponse
  by_cases hb : store.any (matchesDedupKey qid resp.responseId) = true
  · rw [if_pos hb]
    rw [any_map_mem]
    have hcong : ∀ r ∈ store,
        decide ((if matchesDedupKey qid resp.responseId r then updatedRow resp now r
          else r).google_response_id = some g) =
        decide (r.google_response_id = some g) := by
      intro r _
      by_cases hm : matchesDedupKey qid resp.responseId r = true
      · rw [if_pos hm]; rfl
      · rw [if_neg hm]
    rw [any_congr_mem store _ _ hcong]
    constructor
    · exact Or.inl
    · rintro (hp | hg)
      · exact hp
      · obtain ⟨r, hr, hm⟩ := List.any_eq_true.mp hb
        have hrg : r.google_response_id = some resp.responseId :=
          of_decide_eq_true ((Bool.and_eq_true _ _).mp hm).2
        refine List.any_eq_true.mpr ⟨r, hr, ?_⟩
        rw [hrg, hg]
        simp
  · rw [if_neg hb]
    rw [List.any_append]
    simp only [List.any_cons, List.any_nil, Bool.or_false, Bool.or_eq_true, insertedRow,
      decide_eq_true_eq, Option.some.injEq]

theorem existsBy_syncLoop_iff (qid : String) (fails : Nat → Bool) (ids : Nat → String)
    (now : Nat) (g : String) (rs : List GoogleResponse) :
    ∀ (store : List ResponseRow) (counts : SyncCounts) (i : Nat),
      existsByGoogleResponseId (syncLoop qid fails ids now store counts i rs).1 g = true ↔
        existsByGoogleResponseId store g = true ∨ g ∈ batchWrites fails i rs := by
  induction rs with
  | nil => intro store counts i; simp [syncLoop, batchWrites]
  | cons head rest ih =>
      intro store counts i
      simp only [syncLoop, batchWrites]
      by_cases hf : fails i = true
      · rw [if_pos hf, if_pos hf]
        exact ih store _ (i + 1)
      · rw [if_neg hf, if_neg hf]
        by_cases he : existsByGoogleResponseId store head.responseId = true
        · rw [if_pos he]
          rw [ih]
          rw [existsBy_save_iff]
          constructor
          · rintro ((hp | hg) | hmem)
            · exact Or.inl hp
            · exact Or.inr (List.mem_cons.mpr (Or.inl hg.symm))
            · exact Or.inr (List.mem_cons.mpr (Or.inr hmem))
          · rintro (hp | hmem)
            · exact Or.inl (Or.inl hp)
            · rcases List.mem_cons.mp hmem with hg | hmem'
              · exact Or.inl (Or.inr hg.symm)
              · exact Or.inr hmem'
        · rw [if_neg he]
          rw [ih]
          rw [existsBy_save_iff]
          constructor
          · rintro ((hp | hg) | hmem)
            · exact Or.inl hp
            · exact Or.inr (List.mem_cons.mpr (Or.inl hg.symm))
            · exact Or.inr (List.mem_cons.mpr (Or.inr hmem))
          · rintro (hp | hmem)
            · exact Or.inl (Or.inl hp)
            · rcases List.mem_cons.mp hmem with hg | hmem'
              · exact Or.inl (Or.inr hg.symm)
              · exact Or.inr hmem'

def c4Responses : List GoogleResponse :=
  [⟨("s1"), none⟩, ⟨("s2"), none⟩, ⟨("s3"), none⟩, ⟨("s4"), none⟩, ⟨("s5"), none⟩]

def c4Fails : Nat → Bool := fun i => decide (i = 2)

/-- Claim C4: per-item failures are isolated. In every ingestion batch the
new, updated and failed tallies always sum to the fetched count; the
terminal status of a completed batch run is completed exactly when the
failed count is zero and partial exactly otherwise; a batch of zero fetched
items leaves the store untouched and closes as completed; a response id is
stored after the batch exactly when it was already stored or belongs to an
item whose upsert did not fail. Concretely, a 5-item batch into an empty
store whose third item fails reports new + updated = 4 and failed = 1 with
status partial, and items 1, 2, 4, 5 are present in storage while item 3 is
absent. -/
theorem sync_partial_failure_isolation :
    (∀ (store : List ResponseRow) (rs : List GoogleResponse) (qid : String)
        (fails : Nat → Bool) (ids : Nat → String) (now : Nat),
      ((syncBatch store rs qid fails ids now).2.newCount +
          (syncBatch store rs qid fails ids now).2.updatedCount +
          (syncBatch store rs qid fails ids now).2.failedCount = rs.length) ∧
      (runStatus (syncBatch store rs qid fails ids now).2 = ("completed") ↔
          (syncBatch store rs qid fails ids now).2.failedCount = 0) ∧
      (runStatus (syncBatch store rs qid fails ids now).2 = ("partial") ↔
          (syncBatch store rs qid fails ids now).2.failedCount ≠ 0) ∧
      (∀ g : String,
        existsByGoogleResponseId (syncBatch store rs qid fails ids now).1 g = true ↔
          existsByGoogleResponseId store g = true ∨ g ∈ batchWrites fails 0 rs)) ∧
    (∀ (store : List ResponseRow) (qid : String) (fails : Nat → Bool)
        (ids : Nat → String) (now : Nat),
      (syncBatch store [] qid fails ids now).1 = store ∧
      runStatus (syncBatch store [] qid fails ids now).2 = ("completed")) ∧
    ((syncBatch [] c4Responses ("q1") c4Fails (fun i => toString i) 1).2.newCount +
        (syncBatch [] c4Responses ("q1") c4Fails (fun i => toString i) 1).2.updatedCount = 4 ∧
      (syncBatch [] c4Responses ("q1") c4Fails (fun i => toString i) 1).2.failedCount = 1 ∧
      runStatus (syncBatch [] c4Responses ("q1") c4Fails (fun i => toString i) 1).2 =
        ("partial") ∧
      existsByGoogleResponseId
        (syncBatch [] c4Responses ("q1") c4Fails (fun i => toString i) 1).1 ("s1") = true ∧
      existsByGoogleResponseId
        (syncBatch [] c4Responses ("q1") c4Fails (fun i => toString i) 1).1 ("s2") = true ∧
      existsByGoogleResponseId
        (syncBatch [] c4Responses ("q1") c4Fails (fun i => toString i) 1).1 ("s3") = false ∧
      existsByGoogleResponseId
        (syncBatch [] c4Responses ("q1") c4Fails (fun i => toString i) 1).1 ("s4") = true ∧
      existsByGoogleResponseId
        (syncBatch [] c4Responses ("q1") c4Fails (fun i => toString i) 1).1 ("s5") = true) := by
  refine ⟨?_, ?_, by decide⟩
  · intro store rs qid fails ids now
    refine ⟨?_, runStatus_completed_iff _, runStatus_partial_iff _, ?_⟩
    · have h := syncLoop_counts_total qid fails ids now rs store ⟨0, 0, 0⟩ 0
      have h2 : (syncLoop qid fails ids now store ⟨0, 0, 0⟩ 0 rs).2.newCount +
          (syncLoop qid fails ids now store ⟨0, 0, 0⟩ 0 rs).2.updatedCount +
          (syncLoop qid fails ids now store ⟨0, 0, 0⟩ 0 rs).2.failedCount = rs.length := by
        simpa using h
      exact h2
    · intro g
      exact existsBy_syncLoop_iff qid fails ids now g rs store ⟨0, 0, 0⟩ 0
  · intro store qid fails ids now
    exact ⟨rfl, rfl⟩

/-- Claim C2 amended: an ingested response is classified as updated exactly
when some local row already carried its external response identifier in any
questionnaire, and as new exactly otherwise; the pre-existence test of the
classification is keyed on the google response id alone, not on the
(questionnaire, response id) pair. -/
theorem sync_classification_keyed_on_response_id (store : List ResponseRow)
    (resp : GoogleResponse) (questionnaireId : String) (freshIds : Nat → String)
    (now : Nat) :
    ((syncBatch store [resp] questionnaireId noFail freshIds now).2.updatedCount = 1 ↔
      ∃ r ∈ store, r.google_response_id = some resp.responseId) ∧
    ((syncBatch store [resp] questionnaireId noFail freshIds now).2.newCount = 1 ↔
      ¬ ∃ r ∈ store, r.google_response_id = some resp.responseId) := by
  have hex : existsByGoogleResponseId store resp.responseId = true ↔
      ∃ r ∈ store, r.google_response_id = some resp.responseId := by
    unfold existsByGoogleResponseId
    rw [List.any_eq_true]
    simp
  have hcounts : (syncBatch store [resp] questionnaireId noFail freshIds now).2 =
      (if existsByGoogleResponseId store resp.responseId then (⟨0, 1, 0⟩ : SyncCounts)
        else ⟨1, 0, 0⟩) := by
    unfold syncBatch
    simp only [syncLoop, noFail]
    rw [if_neg (by simp)]
    by_cases he : existsByGoogleResponseId store resp.responseId = true
    · rw [if_pos he, if_pos he]
    · rw [if_neg he, if_neg he]
  rw [hcounts]
  by_cases he : existsByGoogleResponseId store resp.responseId = true
  · rw [if_pos he]
    exact ⟨⟨fun _ => hex.mp he, fun _ => rfl⟩,
      ⟨fun h0 => absurd h0 (by decide), fun hn => absurd (hex.mp he) hn⟩⟩
  · rw [if_neg he]
    have hnex : ¬ ∃ r ∈ store, r.google_response_id = some resp.responseId :=
      fun hx => he (hex.mpr hx)
    exact ⟨⟨fun h0 => absurd h0 (by decide), fun hx => absurd hx hnex⟩,
      ⟨fun _ => hnex, fun _ => rfl⟩⟩
